import Mathlib

/-!
# Verification of the Nimble page-exchange kernel code

Shallow embedding of the page-exchange engine from the Nimble page
management kernel (`mm/exchange.c`, `mm/exchange_page.c`).  The repository
carries two successive versions of `mm/exchange.c`; definitions below that
exist in both versions and differ carry a `_v1` suffix for the older
variant, while the unsuffixed name embeds the newer (rebased) variant.

Byte-addressed memory is a function `Nat → Nat`; machine loops become
structural recursions; kernel error codes are integers; external
environment decisions (trylock outcomes, radix-tree lookups, allocation
success) are explicit oracle parameters.
-/

/-- Byte-addressed memory of a physical page frame. -/
def Mem : Type := Nat → Nat

/-- `PAGE_SIZE` for the x86-64 configuration this kernel targets. -/
def PAGE_SIZE : Nat := 4096

/-- One iteration of the swap loop body in `exchange_page` /
`exchange_page_routine`: `tmp = *(u64*)(from+i); *(from+i) = *(to+i);
*(to+i) = tmp;` — the 8 bytes at `off` are exchanged between the two
frames.  Result is `(to', from')`. -/
def swapUnit (toM fromM : Mem) (off : Nat) : Mem × Mem :=
  (fun j => if off ≤ j ∧ j < off + 8 then fromM j else toM j,
   fun j => if off ≤ j ∧ j < off + 8 then toM j else fromM j)

/-- `k` iterations of the 8-byte swap loop starting at byte `base`
(iteration `i` works on offset `base + 8*i`, in loop order). -/
def exchangeUnits (toM fromM : Mem) (base : Nat) : Nat → Mem × Mem
  | 0 => (toM, fromM)
  | k + 1 =>
    let p := exchangeUnits toM fromM base k
    swapUnit p.1 p.2 (base + 8 * k)

/-- `exchange.c`: `static void exchange_page(char *to, char *from)` —
swaps `PAGE_SIZE` bytes in 8-byte units. -/
def exchange_page (toM fromM : Mem) : Mem × Mem :=
  exchangeUnits toM fromM 0 (PAGE_SIZE / 8)

/-- `exchange_page.c`: `exchange_page_routine(to, from, chunk_size)`.
The worker's `to`/`from` pointers are offset by `base` into the frames;
the loop `for (i = 0; i < chunk_size; i += 8)` performs
`⌈chunk_size / 8⌉` unit swaps. -/
def exchange_page_routine (toM fromM : Mem) (base chunk_size : Nat) : Mem × Mem :=
  exchangeUnits toM fromM base ((chunk_size + 7) / 8)

/-- Worker-count clamping in `exchange_page_mthread`:
`total_mt_num = min(limit_mt_num, cpumask_weight(...))`, then forced even
when greater than one (`total_mt_num = (total_mt_num / 2) * 2`). -/
def limitWorkers (limit_mt_num cpus : Nat) : Nat :=
  let t := min limit_mt_num cpus
  if t > 1 then (t / 2) * 2 else t

/-- The work items queued by `exchange_page_mthread`, run to completion
(the caller blocks on `flush_workqueue`).  Worker `i` runs
`exchange_page_routine` on the chunk at offset `i * chunk_size`.  Workers
write disjoint chunks when the partition is exact; the embedding fixes the
queue interleaving as worker order. -/
def runWorkers (toM fromM : Mem) (chunk_size : Nat) : Nat → Mem × Mem
  | 0 => (toM, fromM)
  | i + 1 =>
    let p := runWorkers toM fromM chunk_size i
    exchange_page_routine p.1 p.2 (i * chunk_size) chunk_size

/-- `exchange_page.c`: `exchange_page_mthread(to, from, nr_pages)`.
`limit_mt_num` and the target node's CPU count are the inputs to the
worker-count computation; `allocOk` is the `kzalloc` oracle.  Errors:
`-ENODEV` when the clamped worker count is out of range, `-ENOMEM` on
allocation failure. -/
def exchange_page_mthread (limit_mt_num cpus : Nat) (allocOk : Bool)
    (toM fromM : Mem) (nr_pages : Nat) : Except Int (Mem × Mem) :=
  let total_mt_num := limitWorkers limit_mt_num cpus
  if total_mt_num > 32 ∨ total_mt_num < 1 then .error (-19)
  else if ¬ allocOk then .error (-12)
  else
    let chunk_size := PAGE_SIZE * nr_pages / total_mt_num
    .ok (runWorkers toM fromM chunk_size total_mt_num)

/-- The single-threaded fallback for a multi-page region:
`exchange_huge_page` calls `exchange_highpage(dst + i, src + i)` (i.e.
`exchange_page` at byte offset `4096 * i`) for each sub-page in order. -/
def exchangeSubPages (toM fromM : Mem) : Nat → Mem × Mem
  | 0 => (toM, fromM)
  | i + 1 =>
    let p := exchangeSubPages toM fromM i
    exchangeUnits p.1 p.2 (PAGE_SIZE * i) (PAGE_SIZE / 8)

/-- Pointwise characterisation of the 8-byte swap loop: `k` iterations
starting at `base` exchange exactly the bytes in `[base, base + 8*k)`. -/
theorem exchangeUnits_eq (toM fromM : Mem) (base k : Nat) :
    exchangeUnits toM fromM base k =
      ((fun j => if base ≤ j ∧ j < base + 8 * k then fromM j else toM j),
       (fun j => if base ≤ j ∧ j < base + 8 * k then toM j else fromM j)) := by
  induction k with
  | zero =>
    refine Prod.ext ?_ ?_ <;> funext j <;>
      simp only [exchangeUnits] <;> split_ifs <;> first
      | rfl
      | (exfalso; omega)
  | succ k ih =>
    have h1 : exchangeUnits toM fromM base (k + 1) =
        swapUnit (exchangeUnits toM fromM base k).1
          (exchangeUnits toM fromM base k).2 (base + 8 * k) := rfl
    rw [h1, ih]
    refine Prod.ext ?_ ?_ <;> funext j <;>
      simp only [swapUnit] <;> split_ifs <;> first
      | rfl
      | (exfalso; omega)

/-- The sequential sub-page loop swaps exactly the bytes of the whole
region `[0, 4096 * nr)`. -/
theorem exchangeSubPages_eq (toM fromM : Mem) (nr : Nat) :
    exchangeSubPages toM fromM nr =
      ((fun j => if j < PAGE_SIZE * nr then fromM j else toM j),
       (fun j => if j < PAGE_SIZE * nr then toM j else fromM j)) := by
  induction nr with
  | zero =>
    refine Prod.ext ?_ ?_ <;> funext j <;>
      simp only [exchangeSubPages] <;> split_ifs <;> first
      | rfl
      | (exfalso; omega)
  | succ n ih =>
    have h1 : exchangeSubPages toM fromM (n + 1) =
        exchangeUnits (exchangeSubPages toM fromM n).1
          (exchangeSubPages toM fromM n).2 (PAGE_SIZE * n) (PAGE_SIZE / 8) := rfl
    have hs : PAGE_SIZE * (n + 1) = PAGE_SIZE * n + PAGE_SIZE := by
      simp [PAGE_SIZE]; ring
    rw [h1, ih, exchangeUnits_eq]
    refine Prod.ext ?_ ?_ <;> funext j <;>
      simp only [hs, PAGE_SIZE] <;> split_ifs <;> first
      | rfl
      | (exfalso; omega)

/-- When the chunks tile the region exactly and each chunk is a multiple
of 8 bytes, the workers together swap exactly `[0, total * chunk)`. -/
theorem runWorkers_eq (toM fromM : Mem) (chunk_size : Nat)
    (h8 : chunk_size % 8 = 0) (total : Nat) :
    runWorkers toM fromM chunk_size total =
      ((fun j => if j < total * chunk_size then fromM j else toM j),
       (fun j => if j < total * chunk_size then toM j else fromM j)) := by
  induction total with
  | zero =>
    refine Prod.ext ?_ ?_ <;> funext j <;>
      simp only [runWorkers] <;> split_ifs <;> first
      | rfl
      | (exfalso; omega)
  | succ n ih =>
    have h1 : runWorkers toM fromM chunk_size (n + 1) =
        exchange_page_routine (runWorkers toM fromM chunk_size n).1
          (runWorkers toM fromM chunk_size n).2 (n * chunk_size) chunk_size := rfl
    have hceil : 8 * ((chunk_size + 7) / 8) = chunk_size := by omega
    have hs : (n + 1) * chunk_size = n * chunk_size + chunk_size :=
      Nat.succ_mul n chunk_size
    rw [h1, ih, exchange_page_routine, exchangeUnits_eq]
    refine Prod.ext ?_ ?_ <;> funext j <;>
      simp only [hs, hceil] <;> split_ifs <;> first
      | rfl
      | (exfalso; omega)

/-! ## Page descriptors

A `struct page` as the exchange code observes it: reference count, map
count, the raw `page->mapping` word (`0` = NULL; for anonymous pages it
holds the tagged `anon_vma` pointer), the `index`, and the page flags this
code reads or writes.  `cpupid` is the NUMA access-hint word, `memCgroup`
the owning `mem_cgroup` pointer.  KSM stable-tree state touched by
`ksm_exchange_page` lives outside the descriptor and is not modelled. -/

@[ext]
structure Page where
  count : Nat
  mapcount : Nat
  mapping : Nat
  isAnon : Bool
  index : Nat
  swapbacked : Bool
  error : Bool
  referenced : Bool
  uptodate : Bool
  active : Bool
  unevictable : Bool
  checked : Bool
  mappedtodisk : Bool
  dirty : Bool
  young : Bool
  idle : Bool
  swapcache : Bool
  writeback : Bool
  doublemap : Bool
  priv : Bool
  cpupid : Int
  memCgroup : Nat
  isLRU : Bool
  isHuge : Bool
  isTransHuge : Bool
  isCompound : Bool
  order : Nat
  isKsm : Bool
deriving DecidableEq, Repr

/-- `page_mapping(page)`: NULL for anonymous pages, else the raw
`page->mapping` (NULL when that word is zero). -/
def page_mapping (p : Page) : Option Nat :=
  if p.isAnon then none
  else if p.mapping = 0 then none
  else some p.mapping

/-- `page_mapped(page)`: some page-table entry references the page. -/
def page_mapped (p : Page) : Bool := p.mapcount > 0

/-- `page_has_private(page)`. -/
def page_has_private (p : Page) : Bool := p.priv

/-- `page_count(page)`. -/
def page_count (p : Page) : Nat := p.count

/-- `hpage_nr_pages(page)`: `HPAGE_PMD_NR` (512 on x86-64) for a
transparent huge page, otherwise 1. -/
def hpage_nr_pages (p : Page) : Nat := if p.isTransHuge then 512 else 1

/-- `migrate_mode` in this kernel is a bitmask: the low mask holds the
synchronisation mode (`MIGRATE_ASYNC` being the zero pattern), the high
bits select multithreaded / DMA / concurrent copies. -/
structure Mode where
  syncLight : Bool
  sync : Bool
  mt : Bool
  dma : Bool
  concur : Bool
deriving DecidableEq, Repr

/-- `(mode & MIGRATE_MODE_MASK) == MIGRATE_ASYNC`. -/
def modeIsAsync (m : Mode) : Bool := !m.syncLight && !m.sync

/-- `mode & MIGRATE_ASYNC` — `MIGRATE_ASYNC` is the all-zero mask, so this
C test is identically false. -/
def modeAsyncBit (_ : Mode) : Bool := false

/-- `MIGRATE_SYNC | MIGRATE_MT`-style modes used by the drivers. -/
def syncMode (mt : Bool) : Mode :=
  { syncLight := false, sync := true, mt := mt, dma := false, concur := false }

/-- `MIGRATEPAGE_SUCCESS`. -/
def MIGRATEPAGE_SUCCESS : Int := 0

/-- `can_be_exchanged(from, to)` from `exchange.c` (rebased version). -/
def can_be_exchanged (a b : Page) : Bool :=
  if a.isCompound != b.isCompound then false
  else if a.isHuge != b.isHuge then false
  else if a.isHuge || b.isHuge then false
  else if a.order != b.order then false
  else true

/-! ## Page metadata exchanger (`exchange_page_flags`, rebased version) -/

/-- The `struct page_flags` snapshot taken by `exchange_page_flags`
(rebased version: `page_private` handling is commented out there and a
`page_doublemap` member exists instead). -/
structure page_flags where
  page_error : Bool
  page_referenced : Bool
  page_uptodate : Bool
  page_active : Bool
  page_unevictable : Bool
  page_checked : Bool
  page_mappedtodisk : Bool
  page_dirty : Bool
  page_is_young : Bool
  page_is_idle : Bool
  page_swapcache : Bool
  page_writeback : Bool
  page_private : Bool
  page_doublemap : Bool
deriving DecidableEq, Repr

/-- The capture-and-clear block run on each page in turn by
`exchange_page_flags`: `TestClear...`/read-then-clear for each bit, in
source order.  `page_swapcache` and `page_doublemap` are read but not
cleared here (swap-cache is cleared later in the function; double-map is
never cleared). -/
def capturePageFlags (p : Page) : page_flags × Page :=
  let cap : page_flags :=
    { page_error := p.error
      page_referenced := p.referenced
      page_uptodate := p.uptodate
      page_active := p.active
      page_unevictable := p.unevictable
      page_checked := p.checked
      page_mappedtodisk := p.mappedtodisk
      page_dirty := p.dirty
      page_is_young := p.young
      page_is_idle := p.idle
      page_swapcache := p.swapcache
      page_writeback := p.writeback
      page_private := false
      page_doublemap := p.doublemap }
  (cap,
   { p with
      error := false, referenced := false, uptodate := false,
      active := false, unevictable := false, checked := false,
      mappedtodisk := false, dirty := false, young := false,
      idle := false, writeback := false })

/-- The conditional-set block of `exchange_page_flags`: each
`if (captured) SetPage...(d)` sets the bit when the captured value is
true and leaves it alone otherwise, i.e. ors the captured bit in;
`page_active`/`page_unevictable` keep the `if/else if` pair from the
source (unevictable is set only when the active bit was not);
`page_swapcache`/`page_writeback` are not touched here. -/
def setPageFlags (d : Page) (f : page_flags) : Page :=
  { d with
      error := d.error || f.page_error,
      referenced := d.referenced || f.page_referenced,
      uptodate := d.uptodate || f.page_uptodate,
      active := d.active || f.page_active,
      unevictable := if f.page_active then d.unevictable
        else d.unevictable || f.page_unevictable,
      checked := d.checked || f.page_checked,
      mappedtodisk := d.mappedtodisk || f.page_mappedtodisk,
      dirty := d.dirty || f.page_dirty,
      young := d.young || f.page_is_young,
      idle := d.idle || f.page_is_idle,
      doublemap := d.doublemap || f.page_doublemap }

/-- `exchange_page_flags(to_page, from_page)` (rebased version): captures
and clears both pages' status bits, sets each captured bit on the other
page, swaps the NUMA cpupid word (via `page_cpupid_xchg_last(..., -1)`
then restore-crosswise), re-derives the swap-cache bit crosswise after
clearing it on both, and swaps the `mem_cgroup` owner.  Returns
`(to_page', from_page')`. -/
def exchange_page_flags (to_page from_page : Page) : Page × Page :=
  let to_memcg := to_page.memCgroup
  let from_memcg := from_page.memCgroup
  let from_cpupid := from_page.cpupid
  let from_page := { from_page with cpupid := -1 }
  let fc := capturePageFlags from_page
  let from_page_flags := fc.1
  let from_page := fc.2
  let to_cpupid := to_page.cpupid
  let to_page := { to_page with cpupid := -1 }
  let tc := capturePageFlags to_page
  let to_page_flags := tc.1
  let to_page := tc.2
  let to_page := setPageFlags to_page from_page_flags
  let from_page := setPageFlags from_page to_page_flags
  let to_page := { to_page with cpupid := from_cpupid }
  let from_page := { from_page with cpupid := to_cpupid }
  let to_page := { to_page with swapcache := false }
  let from_page := { from_page with swapcache := false }
  let to_page :=
    if from_page_flags.page_swapcache then { to_page with swapcache := true } else to_page
  let from_page :=
    if to_page_flags.page_swapcache then { from_page with swapcache := true } else from_page
  let to_page := { to_page with memCgroup := from_memcg }
  let from_page := { from_page with memCgroup := to_memcg }
  (to_page, from_page)

/-! ## Address-space mapping exchanger
(`exchange_page_move_mapping`, rebased version) -/

/-- Result of `exchange_page_move_mapping`: a return code together with
the final `(from_page, to_page)` descriptors, or the `BUG()` taken in the
unsupported file-backed→anonymous / file-backed→file-backed case. -/
inductive MoveMapResult
  | ok (rc : Int) (from_page to_page : Page)
  | bug
deriving DecidableEq, Repr

/-- Environment decisions inside `exchange_page_move_mapping`'s
file-backed branch: whether `xas_load` still finds `to_page` in the
mapping's radix tree, and whether `buffer_migrate_lock_buffers`
succeeds. -/
structure MoveMapEnv where
  xasLoadHitsTo : Bool
  bufferLockOk : Bool
deriving DecidableEq, Repr

/-- `exchange_page_move_mapping(to_mapping, from_mapping, to_page,
from_page, to_head, from_head, mode, to_extra_count, from_extra_count)`
(rebased version).  `to_mapping`/`from_mapping` are the caller-computed
`page_mapping` values; `to_head` records whether a buffer-head list was
passed.  Expected counts are `1 + extra`; an anonymous page whose count
differs fails `-EAGAIN` before anything is written.  Anonymous↔anonymous
swaps `index`/`mapping`/`PageSwapBacked` crosswise; anonymous→file-backed
re-verifies the count under the tree lock (expected further inflated by
`1 + page_has_private`), freezes the reference count (modelled as the
count dropping to 0 and being restored on the failure path), exchanges
the entries and transfers the cache reference.  Both-file-backed (or the
unconstructed file→anon case) is a `BUG()`. -/
def exchange_page_move_mapping
    (to_mapping from_mapping : Option Nat)
    (to_page from_page : Page)
    (to_head : Bool)
    (mode : Mode) (to_extra_count from_extra_count : Nat)
    (env : MoveMapEnv) : MoveMapResult :=
  let to_expected_count := 1 + to_extra_count
  let from_expected_count := 1 + from_extra_count
  let from_page_index := from_page.index
  let to_page_index := to_page.index
  let to_swapbacked := to_page.swapbacked
  let from_swapbacked := from_page.swapbacked
  let to_mapping_value := to_page.mapping
  let from_mapping_value := from_page.mapping
  if to_mapping = none ∧ page_count to_page ≠ to_expected_count then
    .ok (-11) from_page to_page
  else if from_mapping = none ∧ page_count from_page ≠ from_expected_count then
    .ok (-11) from_page to_page
  else if from_mapping = none ∧ to_mapping = none then
    let from_page := { from_page with index := to_page_index }
    let from_page := { from_page with mapping := to_mapping_value }
    let from_page := { from_page with swapbacked := false }
    let from_page :=
      if to_swapbacked then { from_page with swapbacked := true } else from_page
    let to_page := { to_page with index := from_page_index }
    let to_page := { to_page with mapping := from_mapping_value }
    let to_page := { to_page with swapbacked := false }
    let to_page :=
      if from_swapbacked then { to_page with swapbacked := true } else to_page
    .ok MIGRATEPAGE_SUCCESS from_page to_page
  else if from_mapping = none ∧ to_mapping ≠ none then
    let to_expected_count := to_expected_count + 1 +
      (if page_has_private to_page then 1 else 0)
    if page_count to_page ≠ to_expected_count ∨ ¬ env.xasLoadHitsTo then
      .ok (-11) from_page to_page
    else
      let to_page₁ := { to_page with count := 0 }
      if modeIsAsync mode ∧ to_head ∧ ¬ env.bufferLockOk then
        .ok (-11) from_page { to_page₁ with count := to_expected_count }
      else
        let from_page := { from_page with swapbacked := false }
        let to_page₂ := { to_page₁ with swapbacked := false }
        let from_page := { from_page with index := to_page_index }
        let from_page := { from_page with mapping := to_mapping_value }
        let to_page₃ := { to_page₂ with index := from_page_index }
        let to_page₃ := { to_page₃ with mapping := from_mapping_value }
        let from_page :=
          { from_page with count := from_page.count + hpage_nr_pages to_page }
        let from_page :=
          if to_swapbacked then { from_page with swapbacked := true } else from_page
        let to_page₄ :=
          if from_swapbacked then { to_page₃ with swapbacked := true } else to_page₃
        let to_page₅ :=
          { to_page₄ with count := to_expected_count - hpage_nr_pages to_page }
        .ok MIGRATEPAGE_SUCCESS from_page to_page₅
  else
    .bug

/-! ## Exchange engines

The engines are embedded as explicit state transformers.  Calls into the
memory-management environment that do not change the modelled page
descriptor (`putback_lru_page`, `put_page` of a freed page, the
isolated-page node counters, `remove_migration_ptes`, `migrate_prep`) are
recorded as events in program order, so theorems can speak about what the
engine did to each page.  The pair protocol `unmap_and_exchange` used by
the sequential engine is a parameter of type `Proto` (its behaviour is
universally quantified in the theorems). -/

/-- Observable actions of the engines, in program order. -/
inductive Event
  | dropPage (p : Page)
  | decIsolated (p : Page)
  | incIsolated (p : Page)
  | putback (p : Page)
  | protoCall (from_page to_page : Page)
  | unmapCall (pass : Nat) (force : Bool) (from_page to_page : Page)
  | removeMigrationPtes (p : Page)
  | migratePrep
  | engineRun
deriving DecidableEq, Repr

/-- `ClearPageActive` followed by `ClearPageUnevictable`. -/
def clearActiveUnevictable (p : Page) : Page :=
  { p with active := false, unevictable := false }

/-- Behaviour of a pair protocol (`unmap_and_exchange` or
`unmap_and_exchange_anon`): given the two pages and the mode it yields a
return code and the two final page descriptors. -/
def Proto : Type := Page → Page → Mode → Int × Page × Page

/-- The freed-page short-circuit and pre-checks at the top of the
sequential engine's per-pair loop (`exchange_pages`, rebased version,
up to the `unmap_and_exchange` call): `some` retires or fails the pair
without running the protocol, `none` proceeds to the protocol. -/
def exchangeRetireOrPrecheck (from_page to_page : Page) :
    Option (Nat × List Event) :=
  if page_count from_page = 1 then
    let fromC := clearActiveUnevictable from_page
    if page_count to_page = 1 then
      let toC := clearActiveUnevictable to_page
      some (0, [.dropPage fromC, .decIsolated fromC, .dropPage toC])
    else
      some (0, [.dropPage fromC, .decIsolated fromC,
                .decIsolated to_page, .putback to_page])
  else if page_count to_page = 1 then
    let toC := clearActiveUnevictable to_page
    some (0, [.dropPage toC, .decIsolated toC,
              .decIsolated from_page, .putback from_page])
  else if ¬ can_be_exchanged from_page to_page ∨ (page_mapping from_page).isSome then
    some (1, [.decIsolated from_page, .putback from_page,
              .decIsolated to_page, .putback to_page])
  else
    none

/-- One pair of the sequential engine's loop, with the retry budget of the
`rc == -EAGAIN && retry < 3` loop (`goto again` re-enters at the freed-page
checks with the pages as the protocol left them).  Returns the contribution
to `failed` and the events. -/
def exchange_pages_one_pair (proto : Proto) (mode : Mode) :
    Nat → Page → Page → Nat × List Event
  | 0, from_page, to_page =>
    match exchangeRetireOrPrecheck from_page to_page with
    | some r => r
    | none =>
      let r := proto from_page to_page mode
      ((if r.1 ≠ MIGRATEPAGE_SUCCESS then 1 else 0),
       [.protoCall from_page to_page,
        .decIsolated r.2.1, .putback r.2.1, .decIsolated r.2.2, .putback r.2.2])
  | budget + 1, from_page, to_page =>
    match exchangeRetireOrPrecheck from_page to_page with
    | some r => r
    | none =>
      let r := proto from_page to_page mode
      if r.1 = -11 then
        let rest := exchange_pages_one_pair proto mode budget r.2.1 r.2.2
        (rest.1, .protoCall from_page to_page :: rest.2)
      else
        ((if r.1 ≠ MIGRATEPAGE_SUCCESS then 1 else 0),
         [.protoCall from_page to_page,
          .decIsolated r.2.1, .putback r.2.1, .decIsolated r.2.2, .putback r.2.2])

/-- `exchange_pages(exchange_list, mode, reason)` (rebased version): the
sequential engine.  Returns `failed` and the event trace. -/
def exchange_pages (proto : Proto) (mode : Mode) :
    List (Page × Page) → Nat × List Event
  | [] => (0, [])
  | pr :: rest =>
    let r := exchange_pages_one_pair proto mode 3 pr.1 pr.2
    let rr := exchange_pages proto mode rest
    (r.1 + rr.1, r.2 ++ rr.2)

/-! ## Concurrent engine (rebased version) -/

/-- `struct exchange_page_info` (rebased version, `linux/exchange.h`). -/
structure ExchangePageInfo where
  from_page : Page
  to_page : Page
  from_anon_vma : Option Nat
  to_anon_vma : Option Nat
  from_page_was_mapped : Bool
  to_page_was_mapped : Bool
  from_index : Nat
  to_index : Nat
deriving DecidableEq, Repr

/-- A freshly `kzalloc`ed pair record for two pages. -/
def mkPair (from_page to_page : Page) : ExchangePageInfo :=
  { from_page := from_page, to_page := to_page,
    from_anon_vma := none, to_anon_vma := none,
    from_page_was_mapped := false, to_page_was_mapped := false,
    from_index := 0, to_index := 0 }

/-- Oracle for one `unmap_pair_pages_concur` invocation: trylock outcomes
for the two pages, and (older variant only) the `try_to_unmap` results. -/
structure UnmapEnv where
  fromTrylockOk : Bool
  toTrylockOk : Bool
  ttuFromOk : Bool
  ttuToOk : Bool
deriving DecidableEq, Repr

/-- The to-page half of `unmap_pair_pages_concur` (rebased version) after
both pages are locked: corner-case handling then migration-pte
establishment, then `return MIGRATEPAGE_SUCCESS`. -/
def unmapPairToSide (one_pair : ExchangePageInfo) : Int × ExchangePageInfo :=
  let tp := one_pair.to_page
  if tp.mapping = 0 then
    if page_has_private tp then
      (-11, { one_pair with to_page := { tp with priv := false } })
    else
      (MIGRATEPAGE_SUCCESS, one_pair)
  else if page_mapped tp then
    let tp' : Page := { tp with mapcount := 0 }
    (MIGRATEPAGE_SUCCESS,
     { one_pair with to_page := tp', to_page_was_mapped := true })
  else
    (MIGRATEPAGE_SUCCESS, one_pair)

/-- `unmap_pair_pages_concur(one_pair, force, mode)` (rebased version):
records the original indices, trylocks both pages (failing `-EAGAIN`
unless `force` escalates to a blocking `lock_page` and the mode is not
asynchronous), captures the anon_vma handles, then per page either frees
orphaned fs-private metadata (`-EAGAIN` via `out_unlock_both`) or installs
migration entries via `try_to_unmap`, finally `MIGRATEPAGE_SUCCESS`. -/
def unmap_pair_pages_concur (one_pair : ExchangePageInfo) (force : Bool)
    (mode : Mode) (env : UnmapEnv) : Int × ExchangePageInfo :=
  let one_pair := { one_pair with
    from_index := one_pair.from_page.index,
    to_index := one_pair.to_page.index }
  if ¬ env.fromTrylockOk ∧ (¬ force ∨ modeIsAsync mode = true) then
    (-11, one_pair)
  else
    let fp := one_pair.from_page
    let one_pair :=
      if fp.isAnon && !fp.isKsm then
        { one_pair with from_anon_vma := some fp.mapping }
      else one_pair
    if ¬ env.toTrylockOk ∧ (¬ force ∨ modeIsAsync mode = true) then
      (-11, one_pair)
    else
      let tp := one_pair.to_page
      let one_pair :=
        if tp.isAnon && !tp.isKsm then
          { one_pair with to_anon_vma := some tp.mapping }
        else one_pair
      let fp := one_pair.from_page
      if fp.mapping = 0 then
        if page_has_private fp then
          (-11, { one_pair with from_page := { fp with priv := false } })
        else
          unmapPairToSide one_pair
      else if page_mapped fp then
        let fp' : Page := { fp with mapcount := 0 }
        unmapPairToSide
          { one_pair with from_page := fp', from_page_was_mapped := true }
      else
        unmapPairToSide one_pair

/-- Per-pair oracle carried alongside each `exchange_page_info`: the
`unmap_pair_pages_concur` environment for every pass, and the
`exchange_page_move_mapping` environment. -/
structure PairEnv where
  unmapEnv : Nat → UnmapEnv
  mapEnv : MoveMapEnv

/-- The mutable state of one `exchange_pages_concur` invocation:
`exchange_list`, `serialized_list`, `unmapped_list`, the `retry`,
`nr_failed` and `nr_succeeded` counters, the event trace, the `-ENOMEM`
`goto out` flag, and whether a `BUG()`/`BUG_ON` would have fired. -/
structure EngineState where
  exchange_list : List (ExchangePageInfo × PairEnv)
  serialized_list : List (ExchangePageInfo × PairEnv)
  unmapped_list : List (ExchangePageInfo × PairEnv)
  retry : Nat
  nr_failed : Nat
  nr_succeeded : Nat
  events : List Event
  aborted : Bool
  bugFired : Bool

/-- The `for (pass = 0; pass < bound && retry; pass++)` loop shared by the
two concurrent engines, with `fuel = bound - pass` and the `goto out`
abort cutting the loop short. -/
def concurLoop (runPass : Nat → EngineState → EngineState) :
    Nat → Nat → EngineState → EngineState
  | 0, _, st => st
  | fuel + 1, pass, st =>
    if st.aborted ∨ st.retry = 0 then st
    else concurLoop runPass fuel (pass + 1) (runPass pass st)

/-- The retire-freed-pages prologue of the concurrent engine's per-pair
dispatch (`page_count(...) == 1` cases, rebased version): `some` means the
pair was retired (with the given events) and deleted from the list. -/
def concurRetireCheck (from_page to_page : Page) : Option (List Event) :=
  if page_count from_page = 1 then
    let fromC := clearActiveUnevictable from_page
    if page_count to_page = 1 then
      let toC := clearActiveUnevictable to_page
      some [.dropPage fromC, .decIsolated fromC, .dropPage toC]
    else
      some [.dropPage fromC, .decIsolated fromC,
            .decIsolated to_page, .putback to_page]
  else if page_count to_page = 1 then
    let toC := clearActiveUnevictable to_page
    some [.dropPage toC, .decIsolated toC,
          .decIsolated from_page, .putback from_page]
  else
    none

/-- Per-pair dispatch of one concurrent pass (rebased version): retire
freed pairs; divert huge pages — and, through the source's duplicated
`page_mapping(one_pair->from_page)` test, only pairs whose *from* page is
file-backed — to `serialized_list`; otherwise run
`unmap_pair_pages_concur` with `force = 1` and switch on its code. -/
def concurProcessPair (mode : Mode) (pass : Nat) (st : EngineState)
    (pr : ExchangePageInfo × PairEnv) : EngineState :=
  if st.aborted then st
  else
    let p := pr.1
    let fp := p.from_page
    let tp := p.to_page
    match concurRetireCheck fp tp with
    | some ev => { st with events := st.events ++ ev }
    | none =>
      if fp.isHuge || tp.isHuge then
        { st with serialized_list := st.serialized_list ++ [pr] }
      else if (page_mapping fp).isSome ∨ (page_mapping fp).isSome then
        { st with serialized_list := st.serialized_list ++ [pr] }
      else
        let r := unmap_pair_pages_concur p true mode (pr.2.unmapEnv pass)
        let st := { st with events := st.events ++ [Event.unmapCall pass true fp tp] }
        if r.1 = -19 then
          { st with serialized_list := st.serialized_list ++ [(r.2, pr.2)] }
        else if r.1 = -12 then
          { st with aborted := true }
        else if r.1 = -11 then
          { st with
              retry := st.retry + 1,
              exchange_list := st.exchange_list ++ [(r.2, pr.2)] }
        else if r.1 = MIGRATEPAGE_SUCCESS then
          { st with
              unmapped_list := st.unmapped_list ++ [(r.2, pr.2)],
              nr_succeeded := st.nr_succeeded + 1 }
        else
          { st with
              serialized_list := st.serialized_list ++ [(r.2, pr.2)],
              nr_failed := st.nr_failed + 1 }

/-- The rollback taken by `exchange_page_mapping_concur` (rebased version)
when the mapping exchange of one pair fails: restore the migration ptes
that were installed, unlock, decrement the isolated counts and put both
pages back; the pair is deleted from `unmapped_list`. -/
def mappingRollbackEvents (p : ExchangePageInfo) (f' t' : Page) : List Event :=
  (if p.from_page_was_mapped then [Event.removeMigrationPtes f'] else [])
    ++ (if p.to_page_was_mapped then [Event.removeMigrationPtes t'] else [])
    ++ [.decIsolated f', .putback f', .decIsolated t', .putback t']

/-- `exchange_page_mapping_concur(unmapped_list, exchange_list, mode)`
(rebased version), as a walk over `unmapped_list`: the `BUG_ON`s on a
remaining `page_mapping` or on writeback are modelled by `bugFired`;
`exchange_page_move_mapping` runs only when both pages are fully unmapped
(otherwise `-EBUSY`), and a failing pair is rolled back, put back and
deleted.  The per-call `nr_failed` is discarded by the caller and not
tracked. -/
def mappingConcurGo (mode : Mode) :
    List (ExchangePageInfo × PairEnv) → EngineState → EngineState
  | [], st => st
  | pr :: rest, st =>
    if st.bugFired then
      { st with unmapped_list := st.unmapped_list ++ pr :: rest }
    else
      let p := pr.1
      let to_page_mapping := page_mapping p.to_page
      let from_page_mapping := page_mapping p.from_page
      if from_page_mapping.isSome ∨ to_page_mapping.isSome ∨
          p.from_page.writeback ∨ p.to_page.writeback then
        mappingConcurGo mode rest { st with bugFired := true }
      else
        let r :=
          if ¬ page_mapped p.from_page ∧ ¬ page_mapped p.to_page then
            exchange_page_move_mapping to_page_mapping from_page_mapping
              p.to_page p.from_page false mode 0 0 pr.2.mapEnv
          else .ok (-16) p.from_page p.to_page
        match r with
        | .bug => mappingConcurGo mode rest { st with bugFired := true }
        | .ok rc f' t' =>
          if rc ≠ 0 then
            mappingConcurGo mode rest
              { st with events := st.events ++ mappingRollbackEvents p f' t' }
          else
            mappingConcurGo mode rest
              { st with unmapped_list :=
                  st.unmapped_list ++ [({ p with from_page := f', to_page := t' }, pr.2)] }

/-- Stage (c) of a concurrent pass: mapping exchange over the whole
unmapped batch. -/
def exchange_page_mapping_concur (mode : Mode) (st : EngineState) : EngineState :=
  mappingConcurGo mode st.unmapped_list { st with unmapped_list := [] }

/-- `exchange_page_data_concur(unmapped_list, mode)` (rebased version):
nothing on an empty list; on `kzalloc` failure the early `-ENOMEM` return
skips the whole stage (the caller ignores the code); otherwise the page
contents are exchanged (byte level, outside the descriptor model) and
`exchange_page_flags` runs on every pair. -/
def exchange_page_data_concur (mode : Mode) (allocOk : Bool)
    (st : EngineState) : EngineState :=
  if st.bugFired then st
  else if st.unmapped_list.isEmpty then st
  else if ¬ allocOk then st
  else
    { st with unmapped_list := st.unmapped_list.map (fun pr =>
        let r := exchange_page_flags pr.1.to_page pr.1.from_page
        ({ pr.1 with to_page := r.1, from_page := r.2 }, pr.2)) }

/-- `remove_migration_ptes_concur(unmapped_list)` (rebased version):
restore migration ptes crosswise for each side that was unmapped (the
`swap(page->index, ...)` dance is a net no-op on the descriptor), unlock,
release the anon_vma handles and put both pages back.  The source nulls
`from_page`/`to_page` and leaves the dead records in `unmapped_list`
until the final splice; the embedding drops them here. -/
def remove_migration_ptes_concur (st : EngineState) : EngineState :=
  if st.bugFired then st
  else
    let step := fun (st : EngineState) (pr : ExchangePageInfo × PairEnv) =>
      let p := pr.1
      let ev :=
        (if p.from_page_was_mapped then [Event.removeMigrationPtes p.from_page] else [])
          ++ (if p.to_page_was_mapped then [Event.removeMigrationPtes p.to_page] else [])
          ++ [.putback p.from_page, .putback p.to_page]
      { st with events := st.events ++ ev }
    let st' := st.unmapped_list.foldl step st
    { st' with unmapped_list := [] }

/-- One pass of `exchange_pages_concur` (rebased version): reset `retry`,
dispatch every pair on `exchange_list`, then — unless `-ENOMEM` aborted —
run the batch mapping, data and remap stages. -/
def concurRunPass (mode : Mode) (dataAllocOk : Nat → Bool)
    (pass : Nat) (st : EngineState) : EngineState :=
  let st0 := { st with retry := 0, exchange_list := [] }
  let st1 := st.exchange_list.foldl (concurProcessPair mode pass) st0
  if st1.aborted then st1
  else
    let st2 := exchange_page_mapping_concur mode st1
    let st3 := exchange_page_data_concur mode (dataAllocOk pass) st2
    remove_migration_ptes_concur st3

/-- Result of `exchange_pages_concur`. -/
structure ConcurOut where
  ret : Int
  nrFailedTotal : Nat
  loopState : EngineState
  events : List Event

/-- `exchange_pages_concur(exchange_list, mode, reason)` (rebased
version): a pass loop bounded by `pass < 1`, then `nr_failed += retry`,
then the serialized fallback list is handed to the *sequential*
`exchange_pages` (whose failure count is discarded), and the return value
is `nr_failed ? -EFAULT : 0`.  The `-ENOMEM` abort jumps straight to the
return. -/
def exchange_pages_concur (proto : Proto) (mode : Mode)
    (dataAllocOk : Nat → Bool)
    (pairs : List (ExchangePageInfo × PairEnv)) : ConcurOut :=
  let st0 : EngineState :=
    { exchange_list := pairs, serialized_list := [], unmapped_list := [],
      retry := 1, nr_failed := 0, nr_succeeded := 0, events := [],
      aborted := false, bugFired := false }
  let st1 := concurLoop (concurRunPass mode dataAllocOk) 1 0 st0
  if st1.aborted then
    { ret := if st1.nr_failed ≠ 0 then -14 else 0,
      nrFailedTotal := st1.nr_failed, loopState := st1, events := st1.events }
  else
    let nr_failed := st1.nr_failed + st1.retry
    let r := exchange_pages proto mode
      (st1.serialized_list.map (fun pr => (pr.1.from_page, pr.1.to_page)))
    { ret := if nr_failed ≠ 0 then -14 else 0,
      nrFailedTotal := nr_failed, loopState := st1,
      events := st1.events ++ r.2 }

/-- Sample frame contents used by concrete witnesses. -/
def memA : Mem := fun _ => 0

/-- Sample frame contents used by concrete witnesses: byte `j` holds
`j + 1`. -/
def memB : Mem := fun j => j + 1

/-! ## `exchange_two_pages` -/

/-- Oracle for `exchange_two_pages`: the two `get_page_unless_zero`
attempts and the two `isolate_lru_page` attempts per page (first try,
and retry after the `migrate_prep` pagevec flush). -/
structure TwoPagesEnv where
  get1a : Bool
  get1b : Bool
  iso1a : Bool
  iso1b : Bool
  get2a : Bool
  get2b : Bool
  iso2a : Bool
  iso2b : Bool
deriving DecidableEq, Repr

/-- The `retry_isolate2` section of `exchange_two_pages` onward: isolate
`page2` (the shared `pagevec_flushed` flag decides whether a failed
isolation may retry), then build the one-pair list and run the sequential
engine under `MIGRATE_SYNC`.  Result: `(err, events, engine ran)`. -/
def exchangeTwoStage2 (proto : Proto) (p1 p2 : Page) (env : TwoPagesEnv)
    (flushed : Bool) (ev : List Event) : Int × List Event × Bool :=
  let finish := fun (ev : List Event) =>
    let r := exchange_pages proto (syncMode false) [(p1, p2)]
    ((r.1 : Int), ev ++ [.incIsolated p2, .engineRun] ++ r.2, true)
  if ¬ env.get2a then (-16, ev ++ [.putback p1], false)
  else if env.iso2a then finish ev
  else if ¬ flushed then
    if ¬ env.get2b then (-16, ev ++ [.migratePrep, .putback p1], false)
    else if env.iso2b then finish (ev ++ [.migratePrep])
    else (-16, ev ++ [.migratePrep], false)
  else (-16, ev, false)

/-- `exchange_two_pages(page1, page2)` (rebased version): refuse with
`-EBUSY` unless both pages are on an LRU list, isolate both (with one
`migrate_prep`-flushed retry each), then run the sequential engine on the
single pair.  Result: `(err, events, engine ran)`. -/
def exchange_two_pages (proto : Proto) (p1 p2 : Page) (env : TwoPagesEnv) :
    Int × List Event × Bool :=
  if ¬ (p1.isLRU ∧ p2.isLRU) then (-16, [], false)
  else if ¬ env.get1a then (-16, [], false)
  else if env.iso1a then
    exchangeTwoStage2 proto p1 p2 env false [.incIsolated p1]
  else if ¬ env.get1b then (-16, [.migratePrep], false)
  else if env.iso1b then
    exchangeTwoStage2 proto p1 p2 env true [.migratePrep, .incIsolated p1]
  else (-16, [.migratePrep], false)

/-! ## Older-variant definitions (first copy of `exchange.c`)

Only the parts where the older engine differs are embedded separately:
its `page_flags` capture also latches and clears `PG_private`; its
`unmap_pair_pages_concur` forwards the `try_to_unmap` boolean as the
return code; its mapping stage moves failed pairs back to the main list;
its pass loop runs `pass < 10` with `force = pass > 2`; and its
serialized tail is inlined and feeds `nr_failed`. -/

/-- The capture-and-clear block of the older `exchange_page_flags`
(`PG_private` is captured and cleared as well; `page_doublemap` does not
exist there and is captured as false). -/
def capturePageFlags_v1 (p : Page) : page_flags × Page :=
  let cap : page_flags :=
    { page_error := p.error
      page_referenced := p.referenced
      page_uptodate := p.uptodate
      page_active := p.active
      page_unevictable := p.unevictable
      page_checked := p.checked
      page_mappedtodisk := p.mappedtodisk
      page_dirty := p.dirty
      page_is_young := p.young
      page_is_idle := p.idle
      page_swapcache := p.swapcache
      page_writeback := p.writeback
      page_private := p.priv
      page_doublemap := false }
  (cap,
   { p with
      error := false, referenced := false, uptodate := false,
      active := false, unevictable := false, checked := false,
      mappedtodisk := false, dirty := false, young := false,
      idle := false, priv := false, writeback := false })

/-- The conditional-set block of the older `exchange_page_flags` (no
double-map handling; `page_private` and `page_writeback` are never
re-set); conditional `SetPage...` calls rendered as or-updates as in
`setPageFlags`. -/
def setPageFlags_v1 (d : Page) (f : page_flags) : Page :=
  { d with
      error := d.error || f.page_error,
      referenced := d.referenced || f.page_referenced,
      uptodate := d.uptodate || f.page_uptodate,
      active := d.active || f.page_active,
      unevictable := if f.page_active then d.unevictable
        else d.unevictable || f.page_unevictable,
      checked := d.checked || f.page_checked,
      mappedtodisk := d.mappedtodisk || f.page_mappedtodisk,
      dirty := d.dirty || f.page_dirty,
      young := d.young || f.page_is_young,
      idle := d.idle || f.page_is_idle }

/-- `exchange_page_flags(to_page, from_page)` — older variant. -/
def exchange_page_flags_v1 (to_page from_page : Page) : Page × Page :=
  let to_memcg := to_page.memCgroup
  let from_memcg := from_page.memCgroup
  let from_cpupid := from_page.cpupid
  let from_page := { from_page with cpupid := -1 }
  let fc := capturePageFlags_v1 from_page
  let from_page_flags := fc.1
  let from_page := fc.2
  let to_cpupid := to_page.cpupid
  let to_page := { to_page with cpupid := -1 }
  let tc := capturePageFlags_v1 to_page
  let to_page_flags := tc.1
  let to_page := tc.2
  let to_page := setPageFlags_v1 to_page from_page_flags
  let from_page := setPageFlags_v1 from_page to_page_flags
  let to_page := { to_page with cpupid := from_cpupid }
  let from_page := { from_page with cpupid := to_cpupid }
  let to_page := { to_page with swapcache := false }
  let from_page := { from_page with swapcache := false }
  let to_page :=
    if from_page_flags.page_swapcache then { to_page with swapcache := true } else to_page
  let from_page :=
    if to_page_flags.page_swapcache then { from_page with swapcache := true } else from_page
  let to_page := { to_page with memCgroup := from_memcg }
  let from_page := { from_page with memCgroup := to_memcg }
  (to_page, from_page)

/-- `exchange_page_move_mapping` — older variant: after the anonymous
reference-count checks it swaps `index`/`mapping`/`PageSwapBacked`
unconditionally (the caller's `BUG_ON`s restrict it to the
anonymous-anonymous case). -/
def exchange_page_move_mapping_v1
    (to_mapping from_mapping : Option Nat)
    (to_page from_page : Page)
    (mode : Mode) (to_extra_count from_extra_count : Nat) : MoveMapResult :=
  let to_expected_count := 1 + to_extra_count
  let from_expected_count := 1 + from_extra_count
  let from_page_index := from_page.index
  let to_page_index := to_page.index
  let to_swapbacked := to_page.swapbacked
  let from_swapbacked := from_page.swapbacked
  let to_mapping_value := to_page.mapping
  let from_mapping_value := from_page.mapping
  if to_mapping = none ∧ page_count to_page ≠ to_expected_count then
    .ok (-11) from_page to_page
  else if from_mapping = none ∧ page_count from_page ≠ from_expected_count then
    .ok (-11) from_page to_page
  else
    let from_page := { from_page with index := to_page_index }
    let from_page := { from_page with mapping := to_mapping_value }
    let from_page := { from_page with swapbacked := false }
    let from_page :=
      if to_swapbacked then { from_page with swapbacked := true } else from_page
    let to_page := { to_page with index := from_page_index }
    let to_page := { to_page with mapping := from_mapping_value }
    let to_page := { to_page with swapbacked := false }
    let to_page :=
      if from_swapbacked then { to_page with swapbacked := true } else to_page
    .ok MIGRATEPAGE_SUCCESS from_page to_page

/-- The to-page half of the older `unmap_pair_pages_concur`, threading the
`rc` computed on the from side (`try_to_unmap` returns its boolean as the
return code: success is `1`, not `MIGRATEPAGE_SUCCESS`). -/
def unmapPairToSide_v1 (one_pair : ExchangePageInfo) (rc : Int)
    (env : UnmapEnv) : Int × ExchangePageInfo :=
  let tp := one_pair.to_page
  if tp.mapping = 0 then
    if page_has_private tp then
      (-11, { one_pair with to_page := { tp with priv := false } })
    else
      (rc, one_pair)
  else
    let tp' : Page := if env.ttuToOk then { tp with mapcount := 0 } else tp
    ((if env.ttuToOk then 1 else 0), { one_pair with to_page := tp' })

/-- `unmap_pair_pages_concur(one_pair, force, mode)` — older variant.
`mode & MIGRATE_ASYNC` is identically false (`MIGRATE_ASYNC` is the zero
mask), so only `force` decides between trylock and blocking lock. -/
def unmap_pair_pages_concur_v1 (one_pair : ExchangePageInfo) (force : Bool)
    (mode : Mode) (env : UnmapEnv) : Int × ExchangePageInfo :=
  if ¬ env.fromTrylockOk ∧ (¬ force ∨ modeAsyncBit mode = true) then
    (-11, one_pair)
  else
    let fp := one_pair.from_page
    let one_pair :=
      if fp.isAnon && !fp.isKsm then
        { one_pair with from_anon_vma := some fp.mapping }
      else one_pair
    if ¬ env.toTrylockOk ∧ (¬ force ∨ modeAsyncBit mode = true) then
      (-11, one_pair)
    else
      let tp := one_pair.to_page
      let one_pair :=
        if tp.isAnon && !tp.isKsm then
          { one_pair with to_anon_vma := some tp.mapping }
        else one_pair
      let fp := one_pair.from_page
      if fp.mapping = 0 then
        if page_has_private fp then
          (-11, { one_pair with from_page := { fp with priv := false } })
        else
          unmapPairToSide_v1 one_pair (-11) env
      else
        let fp' : Page := if env.ttuFromOk then { fp with mapcount := 0 } else fp
        unmapPairToSide_v1 { one_pair with from_page := fp' }
          (if env.ttuFromOk then 1 else 0) env

/-- Per-pair dispatch of one pass of the older concurrent engine: no
freed-page retirement; huge pages — and, through the same duplicated
`page_mapping(one_pair->from_page)` test, only file-backed *from* pages —
go to `serialized_list`; otherwise `unmap_pair_pages_concur` runs with
`force = pass > 2`. -/
def concurProcessPair_v1 (mode : Mode) (pass : Nat) (st : EngineState)
    (pr : ExchangePageInfo × PairEnv) : EngineState :=
  if st.aborted then st
  else
    let p := pr.1
    let fp := p.from_page
    let tp := p.to_page
    if fp.isHuge || tp.isHuge then
      { st with serialized_list := st.serialized_list ++ [pr] }
    else if (page_mapping fp).isSome ∨ (page_mapping fp).isSome then
      { st with serialized_list := st.serialized_list ++ [pr] }
    else
      let force := pass > 2
      let r := unmap_pair_pages_concur_v1 p force mode (pr.2.unmapEnv pass)
      let st := { st with events := st.events ++ [Event.unmapCall pass force fp tp] }
      if r.1 = -19 then
        { st with serialized_list := st.serialized_list ++ [(r.2, pr.2)] }
      else if r.1 = -12 then
        { st with aborted := true }
      else if r.1 = -11 then
        { st with
            retry := st.retry + 1,
            exchange_list := st.exchange_list ++ [(r.2, pr.2)] }
      else if r.1 = MIGRATEPAGE_SUCCESS then
        { st with
            unmapped_list := st.unmapped_list ++ [(r.2, pr.2)],
            nr_succeeded := st.nr_succeeded + 1 }
      else
        { st with
            serialized_list := st.serialized_list ++ [(r.2, pr.2)],
            nr_failed := st.nr_failed + 1 }

/-- Mapping stage of the older concurrent engine: runs the older
`exchange_page_move_mapping` on every unmapped pair and moves failing
pairs back to the main `exchange_list` (no unlock/putback there); the
local failure count is discarded by the caller. -/
def mappingConcurGo_v1 (mode : Mode) :
    List (ExchangePageInfo × PairEnv) → EngineState → EngineState
  | [], st => st
  | pr :: rest, st =>
    if st.bugFired then
      { st with unmapped_list := st.unmapped_list ++ pr :: rest }
    else
      let p := pr.1
      let to_page_mapping := page_mapping p.to_page
      let from_page_mapping := page_mapping p.from_page
      if from_page_mapping.isSome ∨ to_page_mapping.isSome ∨
          p.from_page.writeback ∨ p.to_page.writeback then
        mappingConcurGo_v1 mode rest { st with bugFired := true }
      else
        match exchange_page_move_mapping_v1 to_page_mapping from_page_mapping
            p.to_page p.from_page mode 0 0 with
        | .bug => mappingConcurGo_v1 mode rest { st with bugFired := true }
        | .ok rc f' t' =>
          if rc ≠ 0 then
            mappingConcurGo_v1 mode rest
              { st with exchange_list :=
                  st.exchange_list ++ [({ p with from_page := f', to_page := t' }, pr.2)] }
          else
            mappingConcurGo_v1 mode rest
              { st with unmapped_list :=
                  st.unmapped_list ++ [({ p with from_page := f', to_page := t' }, pr.2)] }

/-- Data stage of the older concurrent engine: on allocation failure the
early `-ENOMEM` return skips the stage (code ignored by the caller);
otherwise contents are exchanged (outside the descriptor model) and the
older `exchange_page_flags` runs on every pair. -/
def exchange_page_data_concur_v1 (mode : Mode) (allocOk : Bool)
    (st : EngineState) : EngineState :=
  if st.bugFired then st
  else if ¬ allocOk then st
  else
    { st with unmapped_list := st.unmapped_list.map (fun pr =>
        let r := exchange_page_flags_v1 pr.1.to_page pr.1.from_page
        ({ pr.1 with to_page := r.1, from_page := r.2 }, pr.2)) }

/-- Remap stage of the older concurrent engine: migration ptes are
restored unconditionally in both directions, pages are unlocked and put
back; the source nulls the page pointers in the still-listed records, the
embedding drops the records. -/
def remove_migration_ptes_concur_v1 (st : EngineState) : EngineState :=
  if st.bugFired then st
  else
    let step := fun (st : EngineState) (pr : ExchangePageInfo × PairEnv) =>
      let p := pr.1
      let ev := [Event.removeMigrationPtes p.from_page,
                 Event.removeMigrationPtes p.to_page,
                 .putback p.from_page, .putback p.to_page]
      { st with events := st.events ++ ev }
    let st' := st.unmapped_list.foldl step st
    { st' with unmapped_list := [] }

/-- One pass of the older `exchange_pages_concur`. -/
def concurRunPass_v1 (mode : Mode) (dataAllocOk : Nat → Bool)
    (pass : Nat) (st : EngineState) : EngineState :=
  let st0 := { st with retry := 0, exchange_list := [] }
  let st1 := st.exchange_list.foldl (concurProcessPair_v1 mode pass) st0
  if st1.aborted then st1
  else
    let st2 := mappingConcurGo_v1 mode st1.unmapped_list { st1 with unmapped_list := [] }
    let st3 := exchange_page_data_concur_v1 mode (dataAllocOk pass) st2
    remove_migration_ptes_concur_v1 st3

/-- The serialized tail inlined in the older `exchange_pages_concur`:
file-backed pairs count as failed and are put back; the rest run
`unmap_and_exchange_anon` (the `proto` parameter), whose non-success also
counts; both pages are always put back (no isolated-count decrement in
this variant). -/
def serializedTail_v1 (proto : Proto) (mode : Mode) :
    List (ExchangePageInfo × PairEnv) → Nat × List Event
  | [] => (0, [])
  | pr :: rest =>
    let p := pr.1
    let r :=
      if (page_mapping p.from_page).isSome ∨ (page_mapping p.to_page).isSome then
        ((1 : Nat), [Event.putback p.from_page, Event.putback p.to_page])
      else
        let q := proto p.from_page p.to_page mode
        ((if q.1 ≠ MIGRATEPAGE_SUCCESS then 1 else 0),
         [Event.protoCall p.from_page p.to_page, .putback q.2.1, .putback q.2.2])
    let rr := serializedTail_v1 proto mode rest
    (r.1 + rr.1, r.2 ++ rr.2)

/-- `exchange_pages_concur(exchange_list, mode, reason)` — older variant:
pass loop bounded by `pass < 10` with `force = pass > 2`, then
`nr_failed += retry`, the inlined serialized tail (which feeds
`nr_failed`), and `return nr_failed ? -EFAULT : 0`. -/
def exchange_pages_concur_v1 (proto : Proto) (mode : Mode)
    (dataAllocOk : Nat → Bool)
    (pairs : List (ExchangePageInfo × PairEnv)) : ConcurOut :=
  let st0 : EngineState :=
    { exchange_list := pairs, serialized_list := [], unmapped_list := [],
      retry := 1, nr_failed := 0, nr_succeeded := 0, events := [],
      aborted := false, bugFired := false }
  let st1 := concurLoop (concurRunPass_v1 mode dataAllocOk) 10 0 st0
  if st1.aborted then
    { ret := if st1.nr_failed ≠ 0 then -14 else 0,
      nrFailedTotal := st1.nr_failed, loopState := st1, events := st1.events }
  else
    let nr_failed := st1.nr_failed + st1.retry
    let r := serializedTail_v1 proto mode st1.serialized_list
    let nr_failed := nr_failed + r.1
    { ret := if nr_failed ≠ 0 then -14 else 0,
      nrFailedTotal := nr_failed, loopState := st1,
      events := st1.events ++ r.2 }

/-! # Claims -/

/-- C1: for equal-order frames, the byte-copy backend's swap
(`exchange_page`, and `exchange_page_routine` at page size) exchanges
every 8-byte unit of the whole page — each byte of the to-frame holds the
from-frame's pre-call byte and vice versa — and swapping twice restores
both frames exactly. -/
theorem exchange_page_swap_roundtrip (toM fromM : Mem) :
    (∀ j, j < PAGE_SIZE →
      (exchange_page toM fromM).1 j = fromM j ∧
      (exchange_page toM fromM).2 j = toM j) ∧
    exchange_page (exchange_page toM fromM).1 (exchange_page toM fromM).2 =
      (toM, fromM) ∧
    exchange_page_routine toM fromM 0 PAGE_SIZE = exchange_page toM fromM := by
  have hb : 0 + 8 * (PAGE_SIZE / 8) = PAGE_SIZE := by norm_num [PAGE_SIZE]
  have h1 : exchange_page toM fromM =
      ((fun j => if 0 ≤ j ∧ j < PAGE_SIZE then fromM j else toM j),
       (fun j => if 0 ≤ j ∧ j < PAGE_SIZE then toM j else fromM j)) := by
    have := exchangeUnits_eq toM fromM 0 (PAGE_SIZE / 8)
    rw [hb] at this
    exact this
  refine ⟨?_, ?_, ?_⟩
  · intro j hj
    rw [h1]
    exact ⟨if_pos ⟨Nat.zero_le _, hj⟩, if_pos ⟨Nat.zero_le _, hj⟩⟩
  · have h2 : exchange_page (exchange_page toM fromM).1 (exchange_page toM fromM).2 =
        ((fun j => if 0 ≤ j ∧ j < PAGE_SIZE then (exchange_page toM fromM).2 j
                   else (exchange_page toM fromM).1 j),
         (fun j => if 0 ≤ j ∧ j < PAGE_SIZE then (exchange_page toM fromM).1 j
                   else (exchange_page toM fromM).2 j)) := by
      have := exchangeUnits_eq (exchange_page toM fromM).1
        (exchange_page toM fromM).2 0 (PAGE_SIZE / 8)
      rw [hb] at this
      exact this
    rw [h2, h1]
    refine Prod.ext ?_ ?_ <;> funext j <;> by_cases hc : j < PAGE_SIZE <;>
      simp [hc]
  · rfl

/-- Witness for C1 at a concrete input. -/
theorem exchange_page_swap_roundtrip_witness :
    (exchange_page memA memB).1 0 = memB 0 ∧
    (exchange_page memA memB).2 0 = memA 0 :=
  (exchange_page_swap_roundtrip memA memB).1 0 (by norm_num [PAGE_SIZE])

/-- C7 (amended): when multi-worker copy is requested, the worker count
is satisfiable, and the computed per-worker chunk tiles the region into
8-byte-aligned chunks (`total ∣ bytes` and `8 ∣ chunk`, which holds for
all power-of-two counts), `exchange_page_mthread` blocks until the
workers finish and the resulting memory equals the single-threaded
sequential swap. -/
theorem exchange_page_mthread_refines_sequential
    (limit_mt_num cpus nr_pages : Nat) (toM fromM : Mem)
    (hlo : 1 ≤ limitWorkers limit_mt_num cpus)
    (hhi : limitWorkers limit_mt_num cpus ≤ 32)
    (hdvd : limitWorkers limit_mt_num cpus ∣ PAGE_SIZE * nr_pages)
    (h8 : (PAGE_SIZE * nr_pages / limitWorkers limit_mt_num cpus) % 8 = 0) :
    exchange_page_mthread limit_mt_num cpus true toM fromM nr_pages =
      .ok (exchangeSubPages toM fromM nr_pages) := by
  have hguard : ¬ (limitWorkers limit_mt_num cpus > 32 ∨
      limitWorkers limit_mt_num cpus < 1) := by omega
  have hmul : limitWorkers limit_mt_num cpus *
      (PAGE_SIZE * nr_pages / limitWorkers limit_mt_num cpus) =
      PAGE_SIZE * nr_pages := Nat.mul_div_cancel' hdvd
  simp only [exchange_page_mthread, hguard, if_false, not_true, ite_false]
  rw [runWorkers_eq _ _ _ h8, exchangeSubPages_eq, hmul]

/-- Witness for C7 (amended) with 4 workers on a base page. -/
theorem exchange_page_mthread_refines_sequential_witness :
    exchange_page_mthread 4 4 true memA memB 1 =
      .ok (exchangeSubPages memA memB 1) :=
  exchange_page_mthread_refines_sequential 4 4 1 memA memB
    (by decide) (by decide) (by decide) (by decide)

set_option maxRecDepth 100000 in
/-- Counterexample to C7 as stated: with `limit_mt_num = 6` on a node
with 6 CPUs the guard admits 6 workers, the chunk is `4096 / 6 = 682`
bytes (neither 8-byte aligned nor tiling the page), and the result is not
the sequential swap: byte 682 is swapped twice (workers 0 and 1 overlap)
and ends up unexchanged. -/
theorem exchange_page_mthread_neq_sequential :
    exchange_page_mthread 6 6 true memA memB 1 ≠
      .ok (exchangeSubPages memA memB 1) := by
  intro h
  have h1 : (exchange_page_mthread 6 6 true memA memB 1).toOption.map
        (fun p => p.1 682) =
      (Except.ok (exchangeSubPages memA memB 1) : Except Int (Mem × Mem)).toOption.map
        (fun p => p.1 682) := by rw [h]
  have hL : (exchange_page_mthread 6 6 true memA memB 1).toOption.map
      (fun p => p.1 682) = some 0 := by decide
  have hR : (Except.ok (exchangeSubPages memA memB 1) : Except Int (Mem × Mem)).toOption.map
      (fun p => p.1 682) = some 683 := by decide
  rw [hL, hR] at h1
  exact absurd h1 (by decide)


/-- C2: whenever `exchange_page_move_mapping` fails with `-EAGAIN`
(reference count different from its expected value, a stale radix-tree
slot, or unlockable buffers), the pages it hands back are exactly the
input pages — no index, mapping or flag was mutated. -/
theorem move_mapping_busy_no_mutation
    (to_mapping from_mapping : Option Nat) (to_page from_page : Page)
    (to_head : Bool) (mode : Mode) (to_extra_count from_extra_count : Nat)
    (env : MoveMapEnv) (f' t' : Page)
    (h : exchange_page_move_mapping to_mapping from_mapping to_page from_page
          to_head mode to_extra_count from_extra_count env = .ok (-11) f' t') :
    f' = from_page ∧ t' = to_page := by
  simp only [exchange_page_move_mapping] at h
  by_cases hA : to_mapping = none ∧ page_count to_page ≠ 1 + to_extra_count
  · rw [if_pos hA] at h
    simp only [MoveMapResult.ok.injEq] at h
    exact ⟨h.2.1.symm, h.2.2.symm⟩
  · rw [if_neg hA] at h
    by_cases hB : from_mapping = none ∧ page_count from_page ≠ 1 + from_extra_count
    · rw [if_pos hB] at h
      simp only [MoveMapResult.ok.injEq] at h
      exact ⟨h.2.1.symm, h.2.2.symm⟩
    · rw [if_neg hB] at h
      by_cases hC : from_mapping = none ∧ to_mapping = none
      · rw [if_pos hC] at h
        simp only [MoveMapResult.ok.injEq, MIGRATEPAGE_SUCCESS] at h
        exact absurd h.1 (by norm_num)
      · rw [if_neg hC] at h
        by_cases hD : from_mapping = none ∧ to_mapping ≠ none
        · rw [if_pos hD] at h
          by_cases hE : page_count to_page ≠
              1 + to_extra_count + 1 + (if page_has_private to_page then 1 else 0) ∨
              ¬ env.xasLoadHitsTo = true
          · rw [if_pos hE] at h
            simp only [MoveMapResult.ok.injEq] at h
            exact ⟨h.2.1.symm, h.2.2.symm⟩
          · rw [if_neg hE] at h
            push_neg at hE
            by_cases hF : modeIsAsync mode = true ∧ to_head = true ∧
                ¬ env.bufferLockOk = true
            · rw [if_pos hF] at h
              simp only [MoveMapResult.ok.injEq] at h
              refine ⟨h.2.1.symm, ?_⟩
              rw [← h.2.2]
              show ({ to_page with count := 1 + to_extra_count + 1 +
                if page_has_private to_page then 1 else 0 } : Page) = to_page
              rw [← hE.1]
              rfl
            · rw [if_neg hF] at h
              simp only [MoveMapResult.ok.injEq, MIGRATEPAGE_SUCCESS] at h
              exact absurd h.1 (by norm_num)
        · rw [if_neg hD] at h
          exact absurd h (by simp)

/-- A plain anonymous base page: locked-and-isolated reference count 1,
no page-table mappers, tagged anon_vma word `5`, swap-backed. -/
def anonPageA : Page :=
  { count := 1, mapcount := 0, mapping := 5, isAnon := true, index := 3,
    swapbacked := true, error := false, referenced := false, uptodate := true,
    active := false, unevictable := false, checked := false,
    mappedtodisk := false, dirty := false, young := false, idle := false,
    swapcache := false, writeback := false, doublemap := false, priv := false,
    cpupid := 7, memCgroup := 1, isLRU := true, isHuge := false,
    isTransHuge := false, isCompound := false, order := 0, isKsm := false }

/-- A second anonymous base page with different identity fields. -/
def anonPageB : Page :=
  { anonPageA with
      mapping := 9, index := 4, swapbacked := false,
      cpupid := 8, memCgroup := 2, dirty := true }

/-- Witness for C2: a pair of anonymous pages whose from-side count (3)
differs from the expected 1 fails `-EAGAIN` with both pages unchanged. -/
theorem move_mapping_busy_no_mutation_witness :
    ({ anonPageA with count := 3 } : Page) = { anonPageA with count := 3 } ∧
    anonPageB = anonPageB :=
  move_mapping_busy_no_mutation none none anonPageB { anonPageA with count := 3 }
    false (syncMode false) 0 0 ⟨true, true⟩
    { anonPageA with count := 3 } anonPageB (by decide)

/-- C3: for an anonymous-anonymous pair (both `page_mapping` values NULL)
whose reference counts equal the expected `1 + extra`, the mapping
exchange succeeds and each page leaves with exactly the other page's
prior `index`, raw `mapping` word and swap-backed flag (everything else
unchanged). -/
theorem move_mapping_anon_anon_success
    (to_page from_page : Page) (to_head : Bool) (mode : Mode)
    (to_extra_count from_extra_count : Nat) (env : MoveMapEnv)
    (hc1 : page_count to_page = 1 + to_extra_count)
    (hc2 : page_count from_page = 1 + from_extra_count) :
    exchange_page_move_mapping none none to_page from_page to_head mode
        to_extra_count from_extra_count env =
      .ok MIGRATEPAGE_SUCCESS
        ({ from_page with
            index := to_page.index, mapping := to_page.mapping,
            swapbacked := to_page.swapbacked })
        ({ to_page with
            index := from_page.index, mapping := from_page.mapping,
            swapbacked := from_page.swapbacked }) := by
  simp only [exchange_page_move_mapping]
  rw [if_neg (by simp [hc1]), if_neg (by simp [hc2]), if_pos (by simp)]
  cases hsb1 : to_page.swapbacked <;> cases hsb2 : from_page.swapbacked <;>
    simp [hsb1, hsb2]

/-- Witness for C3 at two concrete anonymous pages with matching counts. -/
theorem move_mapping_anon_anon_success_witness :
    exchange_page_move_mapping none none anonPageB anonPageA false
        (syncMode false) 0 0 ⟨true, true⟩ =
      .ok MIGRATEPAGE_SUCCESS
        ({ anonPageA with
            index := anonPageB.index, mapping := anonPageB.mapping,
            swapbacked := anonPageB.swapbacked })
        ({ anonPageB with
            index := anonPageA.index, mapping := anonPageA.mapping,
            swapbacked := anonPageA.swapbacked }) :=
  move_mapping_anon_anon_success anonPageB anonPageA false (syncMode false)
    0 0 ⟨true, true⟩ (by decide) (by decide)

set_option maxHeartbeats 2000000 in
/-- C4 (amended): `exchange_page_flags` transfers the captured status
bits crosswise — error, referenced, uptodate, active, unevictable (under
the source's active/unevictable exclusivity), checked, mapped-to-disk,
dirty, young, idle and swap-cached — and swaps the NUMA cpupid hint and
the `mem_cgroup` owner; writeback, however, is cleared on both pages and
never re-set, and double-map is set crosswise without being cleared first
(each page keeps its own double-map bit or-ed with the other's).  In
particular active and unevictable are never both set on an output page. -/
theorem exchange_page_flags_amended (to_page from_page : Page)
    (hto : (to_page.active && to_page.unevictable) = false)
    (hfrom : (from_page.active && from_page.unevictable) = false) :
    exchange_page_flags to_page from_page =
      ({ to_page with
          error := from_page.error, referenced := from_page.referenced,
          uptodate := from_page.uptodate, active := from_page.active,
          unevictable := from_page.unevictable,
          checked := from_page.checked, mappedtodisk := from_page.mappedtodisk,
          dirty := from_page.dirty, young := from_page.young,
          idle := from_page.idle, swapcache := from_page.swapcache,
          writeback := false,
          doublemap := to_page.doublemap || from_page.doublemap,
          cpupid := from_page.cpupid, memCgroup := from_page.memCgroup },
       { from_page with
          error := to_page.error, referenced := to_page.referenced,
          uptodate := to_page.uptodate, active := to_page.active,
          unevictable := to_page.unevictable,
          checked := to_page.checked, mappedtodisk := to_page.mappedtodisk,
          dirty := to_page.dirty, young := to_page.young,
          idle := to_page.idle, swapcache := to_page.swapcache,
          writeback := false,
          doublemap := from_page.doublemap || to_page.doublemap,
          cpupid := to_page.cpupid, memCgroup := to_page.memCgroup }) := by
  refine Prod.ext ?_ ?_ <;> ext <;>
    simp only [exchange_page_flags, capturePageFlags, setPageFlags,
      apply_ite Page.count, apply_ite Page.mapcount, apply_ite Page.mapping,
      apply_ite Page.isAnon, apply_ite Page.index, apply_ite Page.swapbacked,
      apply_ite Page.error, apply_ite Page.referenced, apply_ite Page.uptodate,
      apply_ite Page.active, apply_ite Page.unevictable, apply_ite Page.checked,
      apply_ite Page.mappedtodisk, apply_ite Page.dirty, apply_ite Page.young,
      apply_ite Page.idle, apply_ite Page.swapcache, apply_ite Page.writeback,
      apply_ite Page.doublemap, apply_ite Page.priv, apply_ite Page.cpupid,
      apply_ite Page.memCgroup, apply_ite Page.isLRU, apply_ite Page.isHuge,
      apply_ite Page.isTransHuge, apply_ite Page.isCompound,
      apply_ite Page.order, apply_ite Page.isKsm, ite_self] <;>
    (try rfl) <;> (try (split_ifs <;> simp_all))

/-- Witness for C4 (amended) at two concrete pages. -/
theorem exchange_page_flags_amended_witness :
    exchange_page_flags anonPageB anonPageA =
      ({ anonPageB with
          error := anonPageA.error, referenced := anonPageA.referenced,
          uptodate := anonPageA.uptodate, active := anonPageA.active,
          unevictable := anonPageA.unevictable,
          checked := anonPageA.checked, mappedtodisk := anonPageA.mappedtodisk,
          dirty := anonPageA.dirty, young := anonPageA.young,
          idle := anonPageA.idle, swapcache := anonPageA.swapcache,
          writeback := false,
          doublemap := anonPageB.doublemap || anonPageA.doublemap,
          cpupid := anonPageA.cpupid, memCgroup := anonPageA.memCgroup },
       { anonPageA with
          error := anonPageB.error, referenced := anonPageB.referenced,
          uptodate := anonPageB.uptodate, active := anonPageB.active,
          unevictable := anonPageB.unevictable,
          checked := anonPageB.checked, mappedtodisk := anonPageB.mappedtodisk,
          dirty := anonPageB.dirty, young := anonPageB.young,
          idle := anonPageB.idle, swapcache := anonPageB.swapcache,
          writeback := false,
          doublemap := anonPageA.doublemap || anonPageB.doublemap,
          cpupid := anonPageB.cpupid, memCgroup := anonPageB.memCgroup }) :=
  exchange_page_flags_amended anonPageB anonPageA (by decide) (by decide)

/-- The doubly-mapped to-page and writeback from-page used to refute C4
as stated. -/
def pageDouble : Page := { anonPageB with doublemap := true }

/-- From-side page with the writeback bit set. -/
def pageWriteback : Page := { anonPageA with writeback := true }

/-- Counterexample to C4 as stated: the captured double-map bit of the
from page is false yet the to page leaves with double-map set (the bit is
never cleared), and the captured writeback bit of the from page is true
yet the to page leaves with writeback clear (the bit is never re-set) —
so `exchange_page_flags` does not set exactly the captured bits on the
other page. -/
theorem exchange_page_flags_counterexample :
    pageWriteback.doublemap = false ∧
    (exchange_page_flags pageDouble pageWriteback).1.doublemap = true ∧
    pageWriteback.writeback = true ∧
    (exchange_page_flags pageDouble pageWriteback).1.writeback = false := by
  decide

/-- A retired pair short-circuits the per-pair loop identically for any
retry budget and any protocol. -/
theorem one_pair_of_retire (proto : Proto) (mode : Mode) (budget : Nat)
    (from_page to_page : Page) (r : Nat × List Event)
    (h : exchangeRetireOrPrecheck from_page to_page = some r) :
    exchange_pages_one_pair proto mode budget from_page to_page = r := by
  cases budget <;> simp [exchange_pages_one_pair, h]

/-- A protocol that always reports success and leaves the pages alone. -/
def protoZero : Proto := fun from_page to_page _ => (0, from_page, to_page)

/-- A protocol that always reports `-EBUSY` and leaves the pages alone. -/
def protoBusy : Proto := fun from_page to_page _ => (-16, from_page, to_page)

/-- C5: if either page of a pair reaches the sequential engine with
reference count 1, the pair is retired without invoking the
unmap/exchange protocol (the outcome does not depend on the protocol and
no protocol call is traced), it contributes nothing to the failure count,
each freed side is dropped with active/unevictable cleared, and a live
other side is returned to its eviction list unchanged. -/
theorem exchange_pages_freed_short_circuit
    (proto1 proto2 : Proto) (mode : Mode) (budget : Nat)
    (from_page to_page : Page)
    (h : page_count from_page = 1 ∨ page_count to_page = 1) :
    exchange_pages_one_pair proto1 mode budget from_page to_page =
      exchange_pages_one_pair proto2 mode budget from_page to_page ∧
    (exchange_pages_one_pair proto1 mode budget from_page to_page).1 = 0 ∧
    (∀ e ∈ (exchange_pages_one_pair proto1 mode budget from_page to_page).2,
      ∀ a b, e ≠ .protoCall a b) ∧
    (page_count from_page = 1 → 1 < page_count to_page →
      (exchange_pages_one_pair proto1 mode budget from_page to_page).2 =
        [.dropPage (clearActiveUnevictable from_page),
         .decIsolated (clearActiveUnevictable from_page),
         .decIsolated to_page, .putback to_page]) ∧
    (page_count from_page ≠ 1 → page_count to_page = 1 →
      (exchange_pages_one_pair proto1 mode budget from_page to_page).2 =
        [.dropPage (clearActiveUnevictable to_page),
         .decIsolated (clearActiveUnevictable to_page),
         .decIsolated from_page, .putback from_page]) ∧
    (page_count from_page = 1 → page_count to_page = 1 →
      (exchange_pages_one_pair proto1 mode budget from_page to_page).2 =
        [.dropPage (clearActiveUnevictable from_page),
         .decIsolated (clearActiveUnevictable from_page),
         .dropPage (clearActiveUnevictable to_page)]) := by
  by_cases hf : page_count from_page = 1
  · by_cases ht : page_count to_page = 1
    · have hr : exchangeRetireOrPrecheck from_page to_page =
          some (0, [.dropPage (clearActiveUnevictable from_page),
                    .decIsolated (clearActiveUnevictable from_page),
                    .dropPage (clearActiveUnevictable to_page)]) := by
        simp [exchangeRetireOrPrecheck, hf, ht]
      rw [one_pair_of_retire proto1 mode budget from_page to_page _ hr,
        one_pair_of_retire proto2 mode budget from_page to_page _ hr]
      refine ⟨rfl, rfl, ?_, ?_, ?_, ?_⟩
      · intro e he a b
        simp at he
        rcases he with rfl | rfl | rfl <;> simp
      · intro _ hlt
        omega
      · intro hne _
        exact absurd hf hne
      · intro _ _
        rfl
    · have hr : exchangeRetireOrPrecheck from_page to_page =
          some (0, [.dropPage (clearActiveUnevictable from_page),
                    .decIsolated (clearActiveUnevictable from_page),
                    .decIsolated to_page, .putback to_page]) := by
        simp [exchangeRetireOrPrecheck, hf, ht]
      rw [one_pair_of_retire proto1 mode budget from_page to_page _ hr,
        one_pair_of_retire proto2 mode budget from_page to_page _ hr]
      refine ⟨rfl, rfl, ?_, ?_, ?_, ?_⟩
      · intro e he a b
        simp at he
        rcases he with rfl | rfl | rfl | rfl <;> simp
      · intro _ _
        rfl
      · intro hne _
        exact absurd hf hne
      · intro _ ht1
        exact absurd ht1 ht
  · have ht : page_count to_page = 1 := h.resolve_left hf
    have hr : exchangeRetireOrPrecheck from_page to_page =
        some (0, [.dropPage (clearActiveUnevictable to_page),
                  .decIsolated (clearActiveUnevictable to_page),
                  .decIsolated from_page, .putback from_page]) := by
      simp [exchangeRetireOrPrecheck, hf, ht]
    rw [one_pair_of_retire proto1 mode budget from_page to_page _ hr,
      one_pair_of_retire proto2 mode budget from_page to_page _ hr]
    refine ⟨rfl, rfl, ?_, ?_, ?_, ?_⟩
    · intro e he a b
      simp at he
      rcases he with rfl | rfl | rfl | rfl <;> simp
    · intro hf1 _
      exact absurd hf1 hf
    · intro _ _
      rfl
    · intro hf1 _
      exact absurd hf1 hf

/-- Witness for C5: from-page freed (count 1), to-page live (count 2),
under two different protocols. -/
theorem exchange_pages_freed_short_circuit_witness :
    exchange_pages_one_pair protoZero (syncMode false) 3 anonPageA
        { anonPageB with count := 2 } =
      exchange_pages_one_pair protoBusy (syncMode false) 3 anonPageA
        { anonPageB with count := 2 } ∧
    (exchange_pages_one_pair protoZero (syncMode false) 3 anonPageA
        { anonPageB with count := 2 }).1 = 0 :=
  ⟨(exchange_pages_freed_short_circuit protoZero protoBusy (syncMode false) 3
      anonPageA { anonPageB with count := 2 } (Or.inl (by decide))).1,
   (exchange_pages_freed_short_circuit protoZero protoBusy (syncMode false) 3
      anonPageA { anonPageB with count := 2 } (Or.inl (by decide))).2.1⟩

/-- An all-permissive per-pair oracle: every trylock, `try_to_unmap`,
radix-tree lookup and buffer lock succeeds. -/
def envAllOk : PairEnv :=
  { unmapEnv := fun _ =>
      { fromTrylockOk := true, toTrylockOk := true,
        ttuFromOk := true, ttuToOk := true },
    mapEnv := { xasLoadHitsTo := true, bufferLockOk := true } }

/-- A live (count 2) anonymous from-page. -/
def liveAnonFrom : Page := { anonPageA with count := 2 }

/-- A live (count 2) file-backed to-page (`mapping` word 77, not
anonymous). -/
def pageFileBacked : Page :=
  { anonPageB with isAnon := false, mapping := 77, count := 2 }

/-- C6 (failing input): a pair whose from page is anonymous and whose to
page is file-backed is *not* diverted to the serialized list: the
duplicated `page_mapping(one_pair->from_page)` test never looks at the to
page, so the pair runs through the concurrent unmap phase (the trace
shows the `unmap_pair_pages_concur` call), the serialized list stays
empty, and the mapping stage's `BUG_ON(to_page_mapping)` fires. -/
theorem concur_file_backed_to_not_serialized :
    Event.unmapCall 0 true liveAnonFrom pageFileBacked ∈
      (exchange_pages_concur protoZero (syncMode false) (fun _ => true)
        [(mkPair liveAnonFrom pageFileBacked, envAllOk)]).events ∧
    (exchange_pages_concur protoZero (syncMode false) (fun _ => true)
      [(mkPair liveAnonFrom pageFileBacked, envAllOk)]).loopState.serialized_list.isEmpty
      = true ∧
    (exchange_pages_concur protoZero (syncMode false) (fun _ => true)
      [(mkPair liveAnonFrom pageFileBacked, envAllOk)]).loopState.bugFired = true := by
  decide

/-- An orphaned page: no mapping, not anonymous, with fs-private
metadata, still referenced (count 2). -/
def pageOrphan : Page :=
  { anonPageA with isAnon := false, mapping := 0, priv := true, count := 2 }

/-- Counterexample to C8 as stated: a single pair that permanently fails
(the orphaned from page takes the `try_to_free_buffers`/`-EAGAIN` corner
in every pass, and the exhausted retry is folded into `nr_failed`), yet
the concurrent engine returns `-EFAULT`, not the failed-pair count 1. -/
theorem concur_return_not_failure_count :
    (exchange_pages_concur protoZero (syncMode false) (fun _ => true)
      [(mkPair pageOrphan liveAnonFrom, envAllOk)]).nrFailedTotal = 1 ∧
    (exchange_pages_concur protoZero (syncMode false) (fun _ => true)
      [(mkPair pageOrphan liveAnonFrom, envAllOk)]).ret = -14 ∧
    ((-14 : Int) ≠ 1) := by
  decide

/-- A live anonymous pair for the concurrent engine. -/
def pairAnonLive : ExchangePageInfo :=
  mkPair liveAnonFrom { anonPageB with count := 2 }

/-- Counterexample to C9 as stated: the rebased concurrent engine invokes
the unmap sub-step with forced (blocking) lock acquisition already in
pass 0 — the claimed trylock-only behaviour of passes 0..2 does not hold. -/
theorem concur_v2_forces_first_pass :
    Event.unmapCall 0 true liveAnonFrom { anonPageB with count := 2 } ∈
      (exchange_pages_concur protoZero (syncMode false) (fun _ => true)
        [(pairAnonLive, envAllOk)]).events := by
  decide

/-- The retire/precheck prologue contributes at most one failure. -/
theorem retire_fst_le_one (from_page to_page : Page) (r : Nat × List Event)
    (h : exchangeRetireOrPrecheck from_page to_page = some r) : r.1 ≤ 1 := by
  simp only [exchangeRetireOrPrecheck] at h
  split_ifs at h
  all_goals (simp only [Option.some.injEq] at h; rw [← h]; try simp)

/-- Each pair contributes at most one failure to the sequential engine's
count, whatever the protocol does. -/
theorem one_pair_failed_le_one (proto : Proto) (mode : Mode) :
    ∀ budget from_page to_page,
      (exchange_pages_one_pair proto mode budget from_page to_page).1 ≤ 1 := by
  intro budget
  induction budget with
  | zero =>
    intro f t
    simp only [exchange_pages_one_pair]
    cases hr : exchangeRetireOrPrecheck f t with
    | some r => simpa using retire_fst_le_one f t r hr
    | none => split_ifs <;> simp
  | succ b ih =>
    intro f t
    simp only [exchange_pages_one_pair]
    cases hr : exchangeRetireOrPrecheck f t with
    | some r => simpa using retire_fst_le_one f t r hr
    | none =>
      by_cases hrc : (proto f t mode).1 = -11 <;> split_ifs <;> simp [ih]

/-- C8 (amended): the sequential engine returns the number of
permanently-failed pairs — the sum over the consumed list of the per-pair
contributions, each 0 or 1.  The concurrent engine does not return a
count: it yields `-EFAULT` exactly when its concurrent passes recorded
any failure and `0` otherwise, and the failure count of the serialized
fallback (the only consumer of the pair protocol there) has no influence
on the return value. -/
theorem exchange_engines_return_amended
    (proto proto' : Proto) (mode : Mode) (pairs : List (Page × Page))
    (dataAllocOk : Nat → Bool) (cpairs : List (ExchangePageInfo × PairEnv)) :
    (exchange_pages proto mode pairs).1 =
      (pairs.map (fun pr => (exchange_pages_one_pair proto mode 3 pr.1 pr.2).1)).sum ∧
    (∀ pr ∈ pairs, (exchange_pages_one_pair proto mode 3 pr.1 pr.2).1 ≤ 1) ∧
    ((exchange_pages_concur proto mode dataAllocOk cpairs).ret =
      if (exchange_pages_concur proto mode dataAllocOk cpairs).nrFailedTotal = 0
      then 0 else -14) ∧
    (exchange_pages_concur proto mode dataAllocOk cpairs).ret =
      (exchange_pages_concur proto' mode dataAllocOk cpairs).ret := by
  refine ⟨?_, ?_, ?_, ?_⟩
  · induction pairs with
    | nil => rfl
    | cons p rest ih => simp [exchange_pages, ih]
  · intro pr _
    exact one_pair_failed_le_one proto mode 3 pr.1 pr.2
  · simp only [exchange_pages_concur]
    by_cases ha : (concurLoop (concurRunPass mode dataAllocOk) 1 0
        { exchange_list := cpairs, serialized_list := [], unmapped_list := [],
          retry := 1, nr_failed := 0, nr_succeeded := 0, events := [],
          aborted := false, bugFired := false }).aborted = true <;>
      simp only [ha, if_true, if_false, Bool.false_eq_true, ite_true, ite_false] <;>
      split_ifs <;> simp_all
  · simp only [exchange_pages_concur]
    by_cases ha : (concurLoop (concurRunPass mode dataAllocOk) 1 0
        { exchange_list := cpairs, serialized_list := [], unmapped_list := [],
          retry := 1, nr_failed := 0, nr_succeeded := 0, events := [],
          aborted := false, bugFired := false }).aborted = true <;>
      simp only [ha, if_true, if_false, Bool.false_eq_true, ite_true, ite_false]

/-- Witness for C8 (amended): the per-pair bound at a concrete pair. -/
theorem exchange_engines_return_amended_witness :
    (exchange_pages_one_pair protoZero (syncMode false) 3 anonPageA anonPageB).1 ≤ 1 :=
  (exchange_engines_return_amended protoZero protoBusy (syncMode false)
    [(anonPageA, anonPageB)] (fun _ => true) []).2.1 (anonPageA, anonPageB)
    (by decide)

/-- Event-trace invariants survive `List.foldl` over engine state. -/
theorem foldl_events_inv {α : Type} (f : EngineState → α → EngineState)
    (P : Event → Prop)
    (hf : ∀ st x, (∀ e ∈ st.events, P e) → ∀ e ∈ (f st x).events, P e) :
    ∀ (l : List α) (st : EngineState),
      (∀ e ∈ st.events, P e) → ∀ e ∈ (l.foldl f st).events, P e := by
  intro l
  induction l with
  | nil => intro st h; simpa using h
  | cons x rest ih => intro st h; exact ih (f st x) (hf st x h)

/-- The retire prologue only traces drops, isolated-count decrements and
putbacks. -/
theorem concurRetireCheck_events (from_page to_page : Page) (ev : List Event)
    (h : concurRetireCheck from_page to_page = some ev) :
    ∀ e ∈ ev, (∃ p, e = .dropPage p) ∨ (∃ p, e = .decIsolated p) ∨
      (∃ p, e = .putback p) := by
  simp only [concurRetireCheck] at h
  split_ifs at h <;> simp only [Option.some.injEq] at h <;> rw [← h] <;>
    intro e he <;> fin_cases he <;> simp

/-- The sequential engine's retire/precheck prologue likewise. -/
theorem exchangeRetireOrPrecheck_events (from_page to_page : Page)
    (r : Nat × List Event) (h : exchangeRetireOrPrecheck from_page to_page = some r) :
    ∀ e ∈ r.2, (∃ p, e = .dropPage p) ∨ (∃ p, e = .decIsolated p) ∨
      (∃ p, e = .putback p) := by
  simp only [exchangeRetireOrPrecheck] at h
  split_ifs at h <;> simp only [Option.some.injEq] at h <;> rw [← h] <;>
    intro e he <;> fin_cases he <;> simp

/-- The sequential per-pair loop never traces an `unmapCall`. -/
theorem one_pair_no_unmapCall (proto : Proto) (mode : Mode) :
    ∀ budget from_page to_page e,
      e ∈ (exchange_pages_one_pair proto mode budget from_page to_page).2 →
      ∀ p f a b, e ≠ .unmapCall p f a b := by
  intro budget
  induction budget with
  | zero =>
    intro f t e he p fo a b
    simp only [exchange_pages_one_pair] at he
    cases hr : exchangeRetireOrPrecheck f t with
    | some r =>
      simp only [hr] at he
      rcases exchangeRetireOrPrecheck_events f t r hr e he
        with ⟨q, rfl⟩ | ⟨q, rfl⟩ | ⟨q, rfl⟩ <;> simp
    | none =>
      simp only [hr] at he
      simp at he
      rcases he with rfl | rfl | rfl | rfl | rfl <;> simp
  | succ n ih =>
    intro f t e he p fo a b
    simp only [exchange_pages_one_pair] at he
    cases hr : exchangeRetireOrPrecheck f t with
    | some r =>
      simp only [hr] at he
      rcases exchangeRetireOrPrecheck_events f t r hr e he
        with ⟨q, rfl⟩ | ⟨q, rfl⟩ | ⟨q, rfl⟩ <;> simp
    | none =>
      simp only [hr] at he
      by_cases hrc : (proto f t mode).1 = -11
      · rw [if_pos hrc] at he
        simp at he
        rcases he with rfl | hrest
        · simp
        · exact ih (proto f t mode).2.1 (proto f t mode).2.2 e hrest p fo a b
      · rw [if_neg hrc] at he
        simp at he
        rcases he with rfl | rfl | rfl | rfl | rfl <;> simp

/-- The sequential engine never traces an `unmapCall`. -/
theorem exchange_pages_no_unmapCall (proto : Proto) (mode : Mode) :
    ∀ pairs e, e ∈ (exchange_pages proto mode pairs).2 →
      ∀ p f a b, e ≠ .unmapCall p f a b := by
  intro pairs
  induction pairs with
  | nil => intro e he; simp [exchange_pages] at he
  | cons pr rest ih =>
    intro e he p fo a b
    simp only [exchange_pages, List.mem_append] at he
    rcases he with hl | hr
    · exact one_pair_no_unmapCall proto mode 3 pr.1 pr.2 e hl p fo a b
    · exact ih e hr p fo a b

/-- The inlined serialized tail of the older concurrent engine never
traces an `unmapCall`. -/
theorem serializedTail_v1_no_unmapCall (proto : Proto) (mode : Mode) :
    ∀ pairs e, e ∈ (serializedTail_v1 proto mode pairs).2 →
      ∀ p f a b, e ≠ .unmapCall p f a b := by
  intro pairs
  induction pairs with
  | nil => intro e he; simp [serializedTail_v1] at he
  | cons pr rest ih =>
    intro e he p fo a b
    simp only [serializedTail_v1, List.mem_append] at he
    rcases he with hl | hr
    · by_cases hm : (page_mapping pr.1.from_page).isSome = true ∨
          (page_mapping pr.1.to_page).isSome = true
      · rw [if_pos hm] at hl
        simp at hl
        rcases hl with rfl | rfl <;> simp
      · rw [if_neg hm] at hl
        simp at hl
        rcases hl with rfl | rfl | rfl <;> simp
    · exact ih e hr p fo a b

/-- Events added by one per-pair dispatch of the rebased concurrent pass:
nothing beyond retire bookkeeping and an `unmapCall` at this pass with
`force = true`. -/
theorem concurProcessPair_events (mode : Mode) (pass : Nat) (P : Event → Prop)
    (hunmap : ∀ a b, P (.unmapCall pass true a b))
    (hdrop : ∀ p, P (.dropPage p)) (hdec : ∀ p, P (.decIsolated p))
    (hput : ∀ p, P (.putback p)) :
    ∀ st pr, (∀ e ∈ st.events, P e) →
      ∀ e ∈ (concurProcessPair mode pass st pr).events, P e := by
  intro st pr hst e he
  simp only [concurProcessPair] at he
  cases habort : st.aborted with
  | true =>
    simp only [habort, if_true] at he
    exact hst e he
  | false =>
    simp only [habort, Bool.false_eq_true, if_false] at he
    cases hr : concurRetireCheck pr.1.from_page pr.1.to_page with
    | some ev =>
      simp only [hr] at he
      have he' : e ∈ st.events ++ ev := he
      rcases List.mem_append.1 he' with h2 | h2
      · exact hst e h2
      · rcases concurRetireCheck_events pr.1.from_page pr.1.to_page ev hr e h2
          with ⟨q, rfl⟩ | ⟨q, rfl⟩ | ⟨q, rfl⟩
        · exact hdrop q
        · exact hdec q
        · exact hput q
    | none =>
      simp only [hr] at he
      by_cases h1 : (pr.1.from_page.isHuge || pr.1.to_page.isHuge) = true
      · rw [if_pos h1] at he
        exact hst e he
      · rw [if_neg h1] at he
        by_cases h2 : (page_mapping pr.1.from_page).isSome = true ∨
            (page_mapping pr.1.from_page).isSome = true
        · rw [if_pos h2] at he
          exact hst e he
        · rw [if_neg h2] at he
          set r := unmap_pair_pages_concur pr.1 true mode (pr.2.unmapEnv pass) with hrdef
          by_cases h3 : r.1 = -19
          · rw [if_pos h3] at he
            have he' : e ∈ st.events ++
              [Event.unmapCall pass true pr.1.from_page pr.1.to_page] := he
            rcases List.mem_append.1 he' with h4 | h4
            · exact hst e h4
            · simp at h4
              rw [h4]
              exact hunmap pr.1.from_page pr.1.to_page
          · rw [if_neg h3] at he
            by_cases h5 : r.1 = -12
            · rw [if_pos h5] at he
              have he' : e ∈ st.events ++
                [Event.unmapCall pass true pr.1.from_page pr.1.to_page] := he
              rcases List.mem_append.1 he' with h4 | h4
              · exact hst e h4
              · simp at h4
                rw [h4]
                exact hunmap pr.1.from_page pr.1.to_page
            · rw [if_neg h5] at he
              by_cases h6 : r.1 = -11
              · rw [if_pos h6] at he
                have he' : e ∈ st.events ++
                  [Event.unmapCall pass true pr.1.from_page pr.1.to_page] := he
                rcases List.mem_append.1 he' with h4 | h4
                · exact hst e h4
                · simp at h4
                  rw [h4]
                  exact hunmap pr.1.from_page pr.1.to_page
              · rw [if_neg h6] at he
                by_cases h7 : r.1 = MIGRATEPAGE_SUCCESS
                · rw [if_pos h7] at he
                  have he' : e ∈ st.events ++
                    [Event.unmapCall pass true pr.1.from_page pr.1.to_page] := he
                  rcases List.mem_append.1 he' with h4 | h4
                  · exact hst e h4
                  · simp at h4
                    rw [h4]
                    exact hunmap pr.1.from_page pr.1.to_page
                · rw [if_neg h7] at he
                  have he' : e ∈ st.events ++
                    [Event.unmapCall pass true pr.1.from_page pr.1.to_page] := he
                  rcases List.mem_append.1 he' with h4 | h4
                  · exact hst e h4
                  · simp at h4
                    rw [h4]
                    exact hunmap pr.1.from_page pr.1.to_page

/-- Same for the older engine's dispatch: the `unmapCall` it traces at a
pass carries `force = pass > 2`. -/
theorem concurProcessPair_v1_events (mode : Mode) (pass : Nat) (P : Event → Prop)
    (hunmap : ∀ a b, P (.unmapCall pass (decide (pass > 2)) a b)) :
    ∀ st pr, (∀ e ∈ st.events, P e) →
      ∀ e ∈ (concurProcessPair_v1 mode pass st pr).events, P e := by
  intro st pr hst e he
  simp only [concurProcessPair_v1] at he
  cases habort : st.aborted with
  | true =>
    simp only [habort, if_true] at he
    exact hst e he
  | false =>
    simp only [habort, Bool.false_eq_true, if_false] at he
    by_cases h1 : (pr.1.from_page.isHuge || pr.1.to_page.isHuge) = true
    · rw [if_pos h1] at he
      exact hst e he
    · rw [if_neg h1] at he
      by_cases h2 : (page_mapping pr.1.from_page).isSome = true ∨
          (page_mapping pr.1.from_page).isSome = true
      · rw [if_pos h2] at he
        exact hst e he
      · rw [if_neg h2] at he
        set r := unmap_pair_pages_concur_v1 pr.1 (decide (pass > 2)) mode
          (pr.2.unmapEnv pass) with hrdef
        have hmem : e ∈ st.events ++
            [Event.unmapCall pass (decide (pass > 2)) pr.1.from_page pr.1.to_page] → P e := by
          intro he'
          rcases List.mem_append.1 he' with h4 | h4
          · exact hst e h4
          · simp at h4
            rw [h4]
            exact hunmap pr.1.from_page pr.1.to_page
        by_cases h3 : r.1 = -19
        · rw [if_pos h3] at he
          exact hmem he
        · rw [if_neg h3] at he
          by_cases h5 : r.1 = -12
          · rw [if_pos h5] at he
            exact hmem he
          · rw [if_neg h5] at he
            by_cases h6 : r.1 = -11
            · rw [if_pos h6] at he
              exact hmem he
            · rw [if_neg h6] at he
              by_cases h7 : r.1 = MIGRATEPAGE_SUCCESS
              · rw [if_pos h7] at he
                exact hmem he
              · rw [if_neg h7] at he
                exact hmem he

/-- Rollback traces only pte restores, decrements and putbacks. -/
theorem mappingRollbackEvents_kinds (p : ExchangePageInfo) (f' t' : Page) :
    ∀ e ∈ mappingRollbackEvents p f' t',
      (∃ q, e = .removeMigrationPtes q) ∨ (∃ q, e = .decIsolated q) ∨
        (∃ q, e = .putback q) := by
  intro e he
  simp only [mappingRollbackEvents] at he
  by_cases h1 : p.from_page_was_mapped = true <;>
    by_cases h2 : p.to_page_was_mapped = true <;>
    simp [h1, h2] at he <;>
    rcases he with rfl | rfl | rfl | rfl | rfl | rfl <;> simp

/-- The rebased mapping stage only adds rollback events. -/
theorem mappingConcurGo_events (mode : Mode) (P : Event → Prop)
    (hpte : ∀ q, P (.removeMigrationPtes q)) (hdec : ∀ q, P (.decIsolated q))
    (hput : ∀ q, P (.putback q)) :
    ∀ l st, (∀ e ∈ st.events, P e) →
      ∀ e ∈ (mappingConcurGo mode l st).events, P e := by
  intro l
  induction l with
  | nil => intro st h; simpa [mappingConcurGo] using h
  | cons pr rest ih =>
    intro st hst e he
    simp only [mappingConcurGo] at he
    cases hbug : st.bugFired with
    | true =>
      simp only [hbug, if_true] at he
      exact hst e he
    | false =>
      simp only [hbug, Bool.false_eq_true, if_false] at he
      by_cases h1 : (page_mapping pr.1.from_page).isSome = true ∨
          (page_mapping pr.1.to_page).isSome = true ∨
          pr.1.from_page.writeback = true ∨ pr.1.to_page.writeback = true
      · rw [if_pos h1] at he
        exact ih { st with bugFired := true } hst e he
      · rw [if_neg h1] at he
        cases hmm : (if ¬ page_mapped pr.1.from_page = true ∧
              ¬ page_mapped pr.1.to_page = true then
            exchange_page_move_mapping (page_mapping pr.1.to_page)
              (page_mapping pr.1.from_page) pr.1.to_page pr.1.from_page false
              mode 0 0 pr.2.mapEnv
          else .ok (-16) pr.1.from_page pr.1.to_page) with
        | bug =>
          simp only [hmm] at he
          exact ih { st with bugFired := true } hst e he
        | ok rc f' t' =>
          simp only [hmm] at he
          by_cases hrc : rc ≠ 0
          · rw [if_pos hrc] at he
            refine ih _ ?_ e he
            intro e' he'
            have he'' : e' ∈ st.events ++ mappingRollbackEvents pr.1 f' t' := he'
            rcases List.mem_append.1 he'' with h2 | h2
            · exact hst e' h2
            · rcases mappingRollbackEvents_kinds pr.1 f' t' e' h2
                with ⟨q, rfl⟩ | ⟨q, rfl⟩ | ⟨q, rfl⟩
              · exact hpte q
              · exact hdec q
              · exact hput q
          · rw [if_neg hrc] at he
            refine ih _ ?_ e he
            intro e' he'
            exact hst e' he'

/-- The older mapping stage adds no events at all. -/
theorem mappingConcurGo_v1_events (mode : Mode) :
    ∀ l st, (mappingConcurGo_v1 mode l st).events = st.events := by
  intro l
  induction l with
  | nil => intro st; rfl
  | cons pr rest ih =>
    intro st
    simp only [mappingConcurGo_v1]
    cases hbug : st.bugFired with
    | true => simp [hbug]
    | false =>
      simp only [hbug, Bool.false_eq_true, if_false]
      by_cases h1 : (page_mapping pr.1.from_page).isSome = true ∨
          (page_mapping pr.1.to_page).isSome = true ∨
          pr.1.from_page.writeback = true ∨ pr.1.to_page.writeback = true
      · rw [if_pos h1]
        exact ih _
      · rw [if_neg h1]
        cases hmm : exchange_page_move_mapping_v1 (page_mapping pr.1.to_page)
            (page_mapping pr.1.from_page) pr.1.to_page pr.1.from_page mode 0 0 with
        | bug =>
          dsimp only
          exact ih _
        | ok rc f' t' =>
          dsimp only
          by_cases hrc : rc ≠ 0
          · rw [if_pos hrc]
            exact ih _
          · rw [if_neg hrc]
            exact ih _

/-- The data stages add no events. -/
theorem exchange_page_data_concur_events (mode : Mode) (allocOk : Bool)
    (st : EngineState) :
    (exchange_page_data_concur mode allocOk st).events = st.events := by
  simp only [exchange_page_data_concur]
  split_ifs <;> rfl

/-- The older data stage adds no events. -/
theorem exchange_page_data_concur_v1_events (mode : Mode) (allocOk : Bool)
    (st : EngineState) :
    (exchange_page_data_concur_v1 mode allocOk st).events = st.events := by
  simp only [exchange_page_data_concur_v1]
  split_ifs <;> rfl

/-- The remap stage only adds pte restores and putbacks. -/
theorem remove_migration_ptes_concur_events (P : Event → Prop)
    (hpte : ∀ q, P (.removeMigrationPtes q)) (hput : ∀ q, P (.putback q)) :
    ∀ st, (∀ e ∈ st.events, P e) →
      ∀ e ∈ (remove_migration_ptes_concur st).events, P e := by
  intro st hst e he
  simp only [remove_migration_ptes_concur] at he
  cases hbug : st.bugFired with
  | true =>
    simp only [hbug, if_true] at he
    exact hst e he
  | false =>
    simp only [hbug, Bool.false_eq_true, if_false] at he
    have he' : e ∈ (st.unmapped_list.foldl (fun (st : EngineState) pr =>
        { st with events := st.events ++
          ((if pr.1.from_page_was_mapped then [Event.removeMigrationPtes pr.1.from_page] else [])
            ++ (if pr.1.to_page_was_mapped then [Event.removeMigrationPtes pr.1.to_page] else [])
            ++ [.putback pr.1.from_page, .putback pr.1.to_page]) }) st).events := he
    refine foldl_events_inv _ P ?_ st.unmapped_list st hst e he'
    intro st' pr hst' e' he''
    have he3 : e' ∈ st'.events ++
        ((if pr.1.from_page_was_mapped then [Event.removeMigrationPtes pr.1.from_page] else [])
          ++ (if pr.1.to_page_was_mapped then [Event.removeMigrationPtes pr.1.to_page] else [])
          ++ [.putback pr.1.from_page, .putback pr.1.to_page]) := he''
    rcases List.mem_append.1 he3 with h2 | h2
    · exact hst' e' h2
    · by_cases hf : pr.1.from_page_was_mapped = true <;>
        by_cases ht : pr.1.to_page_was_mapped = true <;>
        simp [hf, ht] at h2 <;>
        rcases h2 with rfl | rfl | rfl | rfl <;>
        first
        | exact hpte _
        | exact hput _

/-- The older remap stage only adds pte restores and putbacks. -/
theorem remove_migration_ptes_concur_v1_events (P : Event → Prop)
    (hpte : ∀ q, P (.removeMigrationPtes q)) (hput : ∀ q, P (.putback q)) :
    ∀ st, (∀ e ∈ st.events, P e) →
      ∀ e ∈ (remove_migration_ptes_concur_v1 st).events, P e := by
  intro st hst e he
  simp only [remove_migration_ptes_concur_v1] at he
  cases hbug : st.bugFired with
  | true =>
    simp only [hbug, if_true] at he
    exact hst e he
  | false =>
    simp only [hbug, Bool.false_eq_true, if_false] at he
    have he' : e ∈ (st.unmapped_list.foldl (fun (st : EngineState) pr =>
        { st with events := st.events ++
          [Event.removeMigrationPtes pr.1.from_page,
           Event.removeMigrationPtes pr.1.to_page,
           .putback pr.1.from_page, .putback pr.1.to_page] }) st).events := he
    refine foldl_events_inv _ P ?_ st.unmapped_list st hst e he'
    intro st' pr hst' e' he''
    have he3 : e' ∈ st'.events ++
        [Event.removeMigrationPtes pr.1.from_page,
         Event.removeMigrationPtes pr.1.to_page,
         .putback pr.1.from_page, .putback pr.1.to_page] := he''
    rcases List.mem_append.1 he3 with h2 | h2
    · exact hst' e' h2
    · simp at h2
      rcases h2 with rfl | rfl | rfl | rfl
      · exact hpte _
      · exact hpte _
      · exact hput _
      · exact hput _

/-- One rebased pass only adds retire bookkeeping, rollback/remap
traces, and `unmapCall`s at its own pass with `force = true`. -/
theorem concurRunPass_events (mode : Mode) (dataAllocOk : Nat → Bool)
    (P : Event → Prop)
    (hpte : ∀ q, P (.removeMigrationPtes q)) (hdrop : ∀ q, P (.dropPage q))
    (hdec : ∀ q, P (.decIsolated q)) (hput : ∀ q, P (.putback q)) :
    ∀ pass st, (∀ a b, P (.unmapCall pass true a b)) →
      (∀ e ∈ st.events, P e) →
      ∀ e ∈ (concurRunPass mode dataAllocOk pass st).events, P e := by
  intro pass st hunmap hst e he
  simp only [concurRunPass] at he
  have h1 : ∀ e ∈ (st.exchange_list.foldl (concurProcessPair mode pass)
      { st with retry := 0, exchange_list := [] }).events, P e := by
    refine foldl_events_inv _ P ?_ st.exchange_list _ ?_
    · intro st' x hst'
      exact concurProcessPair_events mode pass P hunmap hdrop hdec hput st' x hst'
    · exact hst
  set st1 := st.exchange_list.foldl (concurProcessPair mode pass)
    { st with retry := 0, exchange_list := [] } with hst1
  cases habort : st1.aborted with
  | true =>
    simp only [habort, if_true] at he
    exact h1 e he
  | false =>
    simp only [habort, Bool.false_eq_true, if_false] at he
    have h2 := mappingConcurGo_events mode P hpte hdec hput st1.unmapped_list
      { st1 with unmapped_list := [] } h1
    have h3 : ∀ e ∈ (exchange_page_data_concur mode (dataAllocOk pass)
        (exchange_page_mapping_concur mode st1)).events, P e := by
      rw [exchange_page_data_concur_events]
      exact h2
    exact remove_migration_ptes_concur_events P hpte hput _ h3 e he

/-- One older pass likewise, with `force = pass > 2`. -/
theorem concurRunPass_v1_events (mode : Mode) (dataAllocOk : Nat → Bool)
    (P : Event → Prop)
    (hpte : ∀ q, P (.removeMigrationPtes q)) (hput : ∀ q, P (.putback q)) :
    ∀ pass st, (∀ a b, P (.unmapCall pass (decide (pass > 2)) a b)) →
      (∀ e ∈ st.events, P e) →
      ∀ e ∈ (concurRunPass_v1 mode dataAllocOk pass st).events, P e := by
  intro pass st hunmap hst e he
  simp only [concurRunPass_v1] at he
  have h1 : ∀ e ∈ (st.exchange_list.foldl (concurProcessPair_v1 mode pass)
      { st with retry := 0, exchange_list := [] }).events, P e := by
    refine foldl_events_inv _ P ?_ st.exchange_list _ ?_
    · intro st' x hst'
      exact concurProcessPair_v1_events mode pass P hunmap st' x hst'
    · exact hst
  set st1 := st.exchange_list.foldl (concurProcessPair_v1 mode pass)
    { st with retry := 0, exchange_list := [] } with hst1
  cases habort : st1.aborted with
  | true =>
    simp only [habort, if_true] at he
    exact h1 e he
  | false =>
    simp only [habort, Bool.false_eq_true, if_false] at he
    have h2 : ∀ e ∈ (mappingConcurGo_v1 mode st1.unmapped_list
        { st1 with unmapped_list := [], aborted := false }).events, P e := by
      rw [mappingConcurGo_v1_events]
      exact h1
    have h3 : ∀ e ∈ (exchange_page_data_concur_v1 mode (dataAllocOk pass)
        (mappingConcurGo_v1 mode st1.unmapped_list
          { st1 with unmapped_list := [], aborted := false })).events, P e := by
      rw [exchange_page_data_concur_v1_events]
      exact h2
    exact remove_migration_ptes_concur_v1_events P hpte hput _ h3 e he

/-- The pass loop preserves a pass-indexed event invariant and runs only
passes below its bound. -/
theorem concurLoop_events (runPass : Nat → EngineState → EngineState)
    (P : Event → Prop) (bound : Nat)
    (h : ∀ pass st, pass < bound → (∀ e ∈ st.events, P e) →
      ∀ e ∈ (runPass pass st).events, P e) :
    ∀ fuel pass st, pass + fuel ≤ bound →
      (∀ e ∈ st.events, P e) →
      ∀ e ∈ (concurLoop runPass fuel pass st).events, P e := by
  intro fuel
  induction fuel with
  | zero =>
    intro pass st _ hst
    simpa [concurLoop] using hst
  | succ n ih =>
    intro pass st hb hst
    simp only [concurLoop]
    split_ifs with hc
    · exact hst
    · exact ih (pass + 1) (runPass pass st) (by omega) (h pass st (by omega) hst)

/-- Stopping condition: the pass loop is a no-op once no pair reported a
transient failure (or after an `-ENOMEM` abort). -/
theorem concurLoop_stops (runPass : Nat → EngineState → EngineState)
    (fuel pass : Nat) (st : EngineState) (h : st.retry = 0) :
    concurLoop runPass fuel pass st = st := by
  cases fuel <;> simp [concurLoop, h]

/-- C9 (amended): the first (older) concurrent engine runs its pass loop
within the bound 10 and calls the unmap sub-step with `force = pass > 2`
(trylock-only in passes 0–2, blocking afterwards); the second (rebased)
engine's pass loop is bounded by 1, so every unmap call happens in pass 0
and always with forced (blocking) lock acquisition.  The loop stops as
soon as no pair reported a transient failure, and on a non-aborted run
the transient failures remaining after the last pass are folded into the
permanent-failure count (together, for the older variant, with the
serialized tail's failures). -/
theorem concur_pass_loop_amended (proto : Proto) (mode : Mode)
    (dataAllocOk : Nat → Bool) (pairs : List (ExchangePageInfo × PairEnv)) :
    (∀ e ∈ (exchange_pages_concur_v1 proto mode dataAllocOk pairs).events,
      ∀ p f a b, e = Event.unmapCall p f a b → p < 10 ∧ f = decide (p > 2)) ∧
    (∀ e ∈ (exchange_pages_concur proto mode dataAllocOk pairs).events,
      ∀ p f a b, e = Event.unmapCall p f a b → p = 0 ∧ f = true) ∧
    (∀ runPass fuel pass st, st.retry = 0 →
      concurLoop runPass fuel pass st = st) ∧
    ((exchange_pages_concur_v1 proto mode dataAllocOk pairs).loopState.aborted = false →
      (exchange_pages_concur_v1 proto mode dataAllocOk pairs).nrFailedTotal =
        (exchange_pages_concur_v1 proto mode dataAllocOk pairs).loopState.nr_failed +
        (exchange_pages_concur_v1 proto mode dataAllocOk pairs).loopState.retry +
        (serializedTail_v1 proto mode
          (exchange_pages_concur_v1 proto mode dataAllocOk pairs).loopState.serialized_list).1) ∧
    ((exchange_pages_concur proto mode dataAllocOk pairs).loopState.aborted = false →
      (exchange_pages_concur proto mode dataAllocOk pairs).nrFailedTotal =
        (exchange_pages_concur proto mode dataAllocOk pairs).loopState.nr_failed +
        (exchange_pages_concur proto mode dataAllocOk pairs).loopState.retry) := by
  refine ⟨?_, ?_, ?_, ?_, ?_⟩
  · -- older variant trace
    intro e he p f a b heq
    subst heq
    simp only [exchange_pages_concur_v1] at he
    set st0 : EngineState :=
      { exchange_list := pairs, serialized_list := [], unmapped_list := [],
        retry := 1, nr_failed := 0, nr_succeeded := 0, events := [],
        aborted := false, bugFired := false } with hst0
    set st1 := concurLoop (concurRunPass_v1 mode dataAllocOk) 10 0 st0 with hst1
    have hloop : ∀ e ∈ st1.events,
        (fun e => ∀ p f a b, e = Event.unmapCall p f a b →
          p < 10 ∧ f = decide (p > 2)) e := by
      refine concurLoop_events _ _ 10 ?_ 10 0 st0 (by omega) (by intro e he; simp [hst0] at he)
      intro pass st hpass hst
      refine concurRunPass_v1_events mode dataAllocOk _ ?_ ?_ pass st ?_ hst
      · intro q p' f' a' b' heq
        exact absurd heq (by simp)
      · intro q p' f' a' b' heq
        exact absurd heq (by simp)
      · intro a' b' p' f' a'' b'' heq
        injection heq with e1 e2 e3 e4
        subst e1
        subst e2
        exact ⟨hpass, rfl⟩
    cases habort : st1.aborted with
    | true =>
      simp only [habort, if_true] at he
      exact hloop _ he p f a b rfl
    | false =>
      simp only [habort, Bool.false_eq_true, if_false] at he
      have he' : Event.unmapCall p f a b ∈ st1.events ++
          (serializedTail_v1 proto mode st1.serialized_list).2 := he
      rcases List.mem_append.1 he' with h2 | h2
      · exact hloop _ h2 p f a b rfl
      · exact absurd rfl
          (serializedTail_v1_no_unmapCall proto mode st1.serialized_list _ h2 p f a b)
  · -- rebased variant trace
    intro e he p f a b heq
    subst heq
    simp only [exchange_pages_concur] at he
    set st0 : EngineState :=
      { exchange_list := pairs, serialized_list := [], unmapped_list := [],
        retry := 1, nr_failed := 0, nr_succeeded := 0, events := [],
        aborted := false, bugFired := false } with hst0
    set st1 := concurLoop (concurRunPass mode dataAllocOk) 1 0 st0 with hst1
    have hloop : ∀ e ∈ st1.events,
        (fun e => ∀ p f a b, e = Event.unmapCall p f a b →
          p = 0 ∧ f = true) e := by
      refine concurLoop_events _ _ 1 ?_ 1 0 st0 (by omega) (by intro e he; simp [hst0] at he)
      intro pass st hpass hst
      refine concurRunPass_events mode dataAllocOk _ ?_ ?_ ?_ ?_ pass st ?_ hst
      · intro q p' f' a' b' heq
        exact absurd heq (by simp)
      · intro q p' f' a' b' heq
        exact absurd heq (by simp)
      · intro q p' f' a' b' heq
        exact absurd heq (by simp)
      · intro q p' f' a' b' heq
        exact absurd heq (by simp)
      · intro a' b' p' f' a'' b'' heq
        injection heq with e1 e2 e3 e4
        subst e1
        subst e2
        exact ⟨by omega, rfl⟩
    cases habort : st1.aborted with
    | true =>
      simp only [habort, if_true] at he
      exact hloop _ he p f a b rfl
    | false =>
      simp only [habort, Bool.false_eq_true, if_false] at he
      have he' : Event.unmapCall p f a b ∈ st1.events ++
          (exchange_pages proto mode
            (st1.serialized_list.map (fun pr => (pr.1.from_page, pr.1.to_page)))).2 := he
      rcases List.mem_append.1 he' with h2 | h2
      · exact hloop _ h2 p f a b rfl
      · exact absurd rfl (exchange_pages_no_unmapCall proto mode _ _ h2 p f a b)
  · exact fun runPass fuel pass st h => concurLoop_stops runPass fuel pass st h
  · simp only [exchange_pages_concur_v1]
    by_cases ha : (concurLoop (concurRunPass_v1 mode dataAllocOk) 10 0
        { exchange_list := pairs, serialized_list := [], unmapped_list := [],
          retry := 1, nr_failed := 0, nr_succeeded := 0, events := [],
          aborted := false, bugFired := false }).aborted = true <;>
      simp [ha]
  · simp only [exchange_pages_concur]
    by_cases ha : (concurLoop (concurRunPass mode dataAllocOk) 1 0
        { exchange_list := pairs, serialized_list := [], unmapped_list := [],
          retry := 1, nr_failed := 0, nr_succeeded := 0, events := [],
          aborted := false, bugFired := false }).aborted = true <;>
      simp [ha]

/-- Witness for C9 (amended): the rebased engine's trace on a live
anonymous pair contains an unmap call, and the amended theorem pins it to
pass 0 with forced locking. -/
theorem concur_pass_loop_amended_witness :
    (0 : Nat) = 0 ∧ (true : Bool) = true :=
  (concur_pass_loop_amended protoZero (syncMode false) (fun _ => true)
      [(pairAnonLive, envAllOk)]).2.1
    (Event.unmapCall 0 true liveAnonFrom { anonPageB with count := 2 })
    (by decide) 0 true liveAnonFrom { anonPageB with count := 2 } rfl

/-- If the second stage of `exchange_two_pages` reaches the engine, the
events accumulated so far are in its trace together with the second
isolation increment. -/
theorem exchangeTwoStage2_run (proto : Proto) (p1 p2 : Page)
    (env : TwoPagesEnv) (flushed : Bool) (ev : List Event)
    (h : (exchangeTwoStage2 proto p1 p2 env flushed ev).2.2 = true) :
    (∀ x ∈ ev, x ∈ (exchangeTwoStage2 proto p1 p2 env flushed ev).2.1) ∧
    Event.incIsolated p2 ∈ (exchangeTwoStage2 proto p1 p2 env flushed ev).2.1 := by
  revert h
  simp only [exchangeTwoStage2]
  by_cases hg2 : env.get2a = true
  · rw [if_neg (not_not_intro hg2)]
    by_cases hi2a : env.iso2a = true
    · rw [if_pos hi2a]
      intro _
      refine ⟨fun x hx => ?_, by simp⟩
      simp only [List.mem_append]
      exact Or.inl (Or.inl hx)
    · rw [if_neg hi2a]
      by_cases hfl : flushed = true
      · rw [if_neg (not_not_intro hfl)]
        intro h
        simp at h
      · rw [if_pos hfl]
        by_cases hg2b : env.get2b = true
        · rw [if_neg (not_not_intro hg2b)]
          by_cases hi2b : env.iso2b = true
          · rw [if_pos hi2b]
            intro _
            refine ⟨fun x hx => ?_, by simp⟩
            simp only [List.mem_append]
            exact Or.inl (Or.inl (Or.inl hx))
          · rw [if_neg hi2b]
            intro h
            simp at h
        · rw [if_pos hg2b]
          intro h
          simp at h
  · rw [if_pos hg2]
    intro h
    simp at h

/-- C10: `exchange_two_pages` returns `-EBUSY` immediately — no
isolation, no state change, no engine call — when either page is not on
an LRU list; and the engine (hence the exchange protocol) only runs after
both pages were on LRU lists and both isolations succeeded (the trace
shows both isolated-count increments). -/
theorem exchange_two_pages_requires_lru
    (proto : Proto) (p1 p2 : Page) (env : TwoPagesEnv) :
    (¬ (p1.isLRU = true ∧ p2.isLRU = true) →
      exchange_two_pages proto p1 p2 env = (-16, [], false)) ∧
    ((exchange_two_pages proto p1 p2 env).2.2 = true →
      p1.isLRU = true ∧ p2.isLRU = true ∧
      Event.incIsolated p1 ∈ (exchange_two_pages proto p1 p2 env).2.1 ∧
      Event.incIsolated p2 ∈ (exchange_two_pages proto p1 p2 env).2.1) := by
  constructor
  · intro h
    simp only [exchange_two_pages]
    rw [if_pos h]
  · intro hrun
    by_cases hlru : p1.isLRU = true ∧ p2.isLRU = true
    · simp only [exchange_two_pages] at hrun ⊢
      rw [if_neg (not_not_intro hlru)] at hrun ⊢
      by_cases hg1 : env.get1a = true
      · rw [if_neg (not_not_intro hg1)] at hrun ⊢
        by_cases hi1a : env.iso1a = true
        · rw [if_pos hi1a] at hrun ⊢
          have hst := exchangeTwoStage2_run proto p1 p2 env false
            [.incIsolated p1] hrun
          exact ⟨hlru.1, hlru.2, hst.1 _ (by simp), hst.2⟩
        · rw [if_neg hi1a] at hrun ⊢
          by_cases hg1b : env.get1b = true
          · rw [if_neg (not_not_intro hg1b)] at hrun ⊢
            by_cases hi1b : env.iso1b = true
            · rw [if_pos hi1b] at hrun ⊢
              have hst := exchangeTwoStage2_run proto p1 p2 env true
                [.migratePrep, .incIsolated p1] hrun
              exact ⟨hlru.1, hlru.2, hst.1 _ (by simp), hst.2⟩
            · rw [if_neg hi1b] at hrun
              simp at hrun
          · rw [if_pos hg1b] at hrun
            simp at hrun
      · rw [if_pos hg1] at hrun
        simp at hrun
    · simp only [exchange_two_pages] at hrun
      rw [if_pos hlru] at hrun
      simp at hrun

/-- Witness for C10: a non-LRU second page is refused outright. -/
theorem exchange_two_pages_requires_lru_witness :
    exchange_two_pages protoZero anonPageA { anonPageB with isLRU := false }
      ⟨true, true, true, true, true, true, true, true⟩ = (-16, [], false) :=
  (exchange_two_pages_requires_lru protoZero anonPageA
      { anonPageB with isLRU := false }
      ⟨true, true, true, true, true, true, true, true⟩).1 (by decide)
